import Mathlib

/-!
Verification of the codingexpress-cli generation pipeline.

The JavaScript source is shallowly embedded: strings are `List Char`,
JS objects are structures / association lists, and the IO layer
(file creation, router registration, the init flow) is modelled as
pure state passing over an explicit file-system map plus an event log.
Each definition mirrors one function of the source file.
-/

namespace CodingExpress

/-- A JavaScript string, embedded as a list of characters. -/
abbrev Str := List Char

/-- Coerce a Lean string literal into the embedding's string type. -/
def str (s : String) : Str := s.data

/-- JS `s.charAt(0).toLowerCase() + s.slice(1)`. -/
def lowerFirst : Str → Str
  | [] => []
  | c :: cs => c.toLower :: cs

/-- JS `s.charAt(0).toUpperCase() + s.slice(1)`. -/
def upperFirst : Str → Str
  | [] => []
  | c :: cs => c.toUpper :: cs

/-- JS `s.toLowerCase()` (ASCII). -/
def toLowerStr (s : Str) : Str := s.map Char.toLower

/-- Split a string at the leftmost occurrence of `pat`: returns the part
before the first occurrence and the part after it, or `none` when `pat`
does not occur.  This is the search underlying JS `String.includes` and
single-occurrence `String.replace`. -/
def firstSplit (pat : Str) : Str → Option (Str × Str)
  | [] => if pat.isPrefixOf ([] : Str) then some ([], []) else none
  | c :: rest =>
    if pat.isPrefixOf (c :: rest) then some ([], (c :: rest).drop pat.length)
    else
      match firstSplit pat rest with
      | some (a, b) => some (c :: a, b)
      | none => none

/-- JS `s.includes(pat)`. -/
def includesStr (pat s : Str) : Bool := (firstSplit pat s).isSome

/-- JS `s.replace(pat, repl)` with a plain-string pattern: replaces only
the leftmost occurrence, and returns `s` unchanged when `pat` is absent. -/
def replaceFirst (pat repl s : Str) : Str :=
  match firstSplit pat s with
  | some (a, b) => a ++ repl ++ b
  | none => s

/-- JS global one-character replace, `s.replace(/c/g, d)` for single chars. -/
def replaceAllChar (c d : Char) (s : Str) : Str :=
  s.map (fun x => if x = c then d else x)

/-- JS global one-character delete, `s.replace(/c/g, "")`. -/
def removeAllChar (c : Char) (s : Str) : Str :=
  s.filter (fun x => x ≠ c)

/-- JS `s.replace(/[^a-zA-Z0-9]/g, "")`. -/
def sanitizeAlnum (s : Str) : Str :=
  s.filter (fun c => c.isAlphanum)

/-- Case-insensitive anchored prefix test: `/^(p₁|p₂|…)/i.test s` with the
alternatives `pats` given in lowercase. -/
def startsWithAnyCI (pats : List Str) (s : Str) : Bool :=
  pats.any (fun p => p.isPrefixOf (toLowerStr s))

/-- JS `route.includes("{")`: the route template has a `{param}` segment. -/
def hasParam (route : Str) : Bool := route.contains '{'

-- --- Type Mapper (source: openApiTypeToMongooseType / openApiTypeToPrismaType) ---

/-- One property node of an OpenAPI schema, as the generator reads it:
its `type` and `format` fields, either possibly absent. -/
structure PropSchema where
  type : Option Str
  format : Option Str
deriving DecidableEq

/-- Source `openApiTypeToMongooseType(openApiType)`: the lookup table
`{string: "String", number: "Number", integer: "Number", boolean: "Boolean",
array: "[Schema.Types.Mixed]", object: "Schema.Types.Mixed"}` with
`|| "String"` as the default for an unknown or missing type. -/
def openApiTypeToMongooseType (openApiType : Option Str) : Str :=
  if openApiType = some (str "string") then str "String"
  else if openApiType = some (str "number") then str "Number"
  else if openApiType = some (str "integer") then str "Number"
  else if openApiType = some (str "boolean") then str "Boolean"
  else if openApiType = some (str "array") then str "[Schema.Types.Mixed]"
  else if openApiType = some (str "object") then str "Schema.Types.Mixed"
  else str "String"

/-- Source `openApiTypeToPrismaType(prop)`: `string`+`date-time` maps to
`DateTime`, then the table `{string: "String", integer: "Int",
number: "Float", boolean: "Boolean"}` with `|| "Json"` as the default. -/
def openApiTypeToPrismaType (prop : PropSchema) : Str :=
  if prop.type = some (str "string") ∧ prop.format = some (str "date-time") then str "DateTime"
  else if prop.type = some (str "string") then str "String"
  else if prop.type = some (str "integer") then str "Int"
  else if prop.type = some (str "number") then str "Float"
  else if prop.type = some (str "boolean") then str "Boolean"
  else str "Json"

-- --- CRUD Classifier (source: identifyCrudType) ---

/-- The six CRUD kinds, named after the strings the source returns. -/
inductive Crud
  | custom
  | store
  | update
  | destroy
  | show
  | index
deriving DecidableEq

/-- Source rule 5, `/^(get|find|show|retrieve).*(ById|One)$/i.test(operationId)`:
an anchored case-insensitive prefix from the first group and, past that
prefix, a case-insensitive suffix `ById` or `One`. -/
def matchesRetrieveById (s : Str) : Bool :=
  [str "get", str "find", str "show", str "retrieve"].any fun p =>
    p.isPrefixOf (toLowerStr s) &&
    ([str "byid", str "one"].any fun suf => suf.isSuffixOf ((toLowerStr s).drop p.length))

/-- The alternatives of source rule 2, `/^(create|add|store)/i`. -/
def createAlternatives : List Str := [str "create", str "add", str "store"]

/-- The alternatives of source rule 3, `/^(update|patch|edit)/i`. -/
def updateAlternatives : List Str := [str "update", str "patch", str "edit"]

/-- The alternatives of source rule 4, `/^(delete|remove|destroy)/i`. -/
def destroyAlternatives : List Str := [str "delete", str "remove", str "destroy"]

/-- The alternatives of source rule 6, `/^(list|get|find|index|search)/i`. -/
def indexAlternatives : List Str := [str "list", str "get", str "find", str "index", str "search"]

/-- Source `identifyCrudType(operationId, httpMethod, route)`, the ordered
rule list: falsy operationId gives `custom`; anchored case-insensitive
prefix groups give `store` / `update` / `destroy`; the `ById`/`One` rule
gives `show`; the anchored `list|get|find|index|search` test gives
`index`; otherwise the `(httpMethod, hasParam)` fallback applies. -/
def identifyCrudType (operationId : Option Str) (httpMethod route : Str) : Crud :=
  match operationId with
  | none => .custom
  | some oid =>
    if oid = [] then .custom
    else if startsWithAnyCI createAlternatives oid then .store
    else if startsWithAnyCI updateAlternatives oid then .update
    else if startsWithAnyCI destroyAlternatives oid then .destroy
    else if matchesRetrieveById oid then .show
    else if startsWithAnyCI indexAlternatives oid then .index
    else if httpMethod = str "get" ∧ hasParam route = false then .index
    else if httpMethod = str "post" ∧ hasParam route = false then .store
    else if httpMethod = str "get" ∧ hasParam route = true then .show
    else if httpMethod = str "put" ∨ httpMethod = str "patch" then .update
    else if httpMethod = str "delete" then .destroy
    else .custom

/-- Modelled from the spec: rule 7 of §4.3, the structural fallback on
`(httpMethod, hasPathParameter)` alone — GET without a parameter lists,
POST without a parameter creates, GET with a parameter retrieves,
PUT/PATCH replaces, DELETE deletes, anything else (rule 8) is custom.
Stated separately from `identifyCrudType` so the classifier can be proved
to refine it whenever no explicit-naming rule fires. -/
def specStructuralFallback (httpMethod route : Str) : Crud :=
  if httpMethod = str "get" ∧ hasParam route = false then .index
  else if httpMethod = str "post" ∧ hasParam route = false then .store
  else if httpMethod = str "get" ∧ hasParam route = true then .show
  else if httpMethod = str "put" ∨ httpMethod = str "patch" then .update
  else if httpMethod = str "delete" then .destroy
  else .custom

-- --- Route Registrar (source: registerRoute) ---

/-- The fixed insertion marker of the generated `app/routes/index.js`. -/
def routerHook : Str := str "// [Coding express-cli-hook] - Add new routes here"

/-- The import line `registerRoute` inserts and checks for verbatim. -/
def routeImportLine (resourceName routeFileName : Str) : Str :=
  str "const " ++ resourceName ++ str "Routes = require('./" ++ routeFileName ++ str "');"

/-- The mount line `registerRoute` inserts under the hook. -/
def routeUsageLine (resourceName : Str) : Str :=
  str "router.use('/" ++ resourceName ++ str "', " ++ resourceName ++ str "Routes);"

/-- What one `registerRoute` call reports on the console. -/
inductive RegOutcome
  | registered
  | alreadyRegistered
  | manualInstructions
deriving DecidableEq

/-- The pure core of `registerRoute`: given the current router-file text,
return the text written back and the reported outcome.  When the import
line is already present verbatim the file is untouched and the call
reports "already registered"; otherwise the hook line is replaced by the
new import line + usage line + hook, written with a success report. -/
def registerRouteContent (resourceName routeFileName content : Str) : Str × RegOutcome :=
  let imp := routeImportLine resourceName routeFileName
  if includesStr imp content then (content, .alreadyRegistered)
  else
    (replaceFirst routerHook
      (imp ++ str "\n" ++ routeUsageLine resourceName ++ str "\n\n" ++ routerHook) content,
     .registered)

/-- Source `registerRoute`: reading the router file may fail (the `catch`
branch prints the manual-edit instructions); otherwise the pure core runs
and its result is written back. `none` models an absent/unreadable
`app/routes/index.js`. -/
def registerRoute (resourceName routeFileName : Str) (routerFile : Option Str) :
    Option Str × RegOutcome :=
  match routerFile with
  | none => (none, .manualInstructions)
  | some content =>
    let r := registerRouteContent resourceName routeFileName content
    (some r.1, r.2)

-- --- ORM choice and template generators ---

/-- The ORM chosen at init (`config.orm`, lowercased): "mongoose" or "prisma". -/
inductive Orm
  | mongoose
  | prisma
deriving DecidableEq

/-- Source `mongooseSearch` block of `getControllerMethodBody`. -/
def mongooseSearch : Str :=
  str "\n      const \x7b page = 1, limit = 10, ...filters \x7d = req.query;\n      const query = \x7b\x7d;\n      // Example: search by fields, could be extended for regex, etc.\n      for (const key in filters) \x7b\n        if (Object.prototype.hasOwnProperty.call(filters, key)) \x7b\n          query[key] = \x7b $regex: filters[key], $options: 'i' \x7d;\n        \x7d\n      \x7d\n      const skip = (parseInt(page, 10) - 1) * parseInt(limit, 10);\n      const [items, totalItems] = await Promise.all([\n        Model.find(query).skip(skip).limit(parseInt(limit, 10)).lean(),\n        Model.countDocuments(query),\n      ]);"

/-- Source `prismaSearch` block of `getControllerMethodBody`. -/
def prismaSearch (modelNameLower : Str) : Str :=
  str "\n      const \x7b page = 1, limit = 10, ...filters \x7d = req.query;\n      const where = \x7b\x7d;\n      // Example: search by fields, could be extended for different modes.\n      for (const key in filters) \x7b\n        if (Object.prototype.hasOwnProperty.call(filters, key)) \x7b\n          where[key] = \x7b contains: filters[key], mode: 'insensitive' \x7d;\n        \x7d\n      \x7d\n      const skip = (parseInt(page, 10) - 1) * parseInt(limit, 10);\n      const [items, totalItems] = await prisma.$transaction([\n        prisma." ++ modelNameLower ++ str ".findMany(\x7b where, skip, take: parseInt(limit, 10) \x7d),\n        prisma." ++ modelNameLower ++ str ".count(\x7b where \x7d),\n      ]);"

/-- Source `custom` stub body of `getControllerMethodBody`: the 501
"Not Implemented" fail-safe. -/
def customMethodBody : Str :=
  str "// TODO: Implement this method\n    try \x7b\n      res.status(501).json(\x7b message: 'Not Implemented' \x7d);\n    \x7d catch (error) \x7b\n      next(error);\n    \x7d"

/-- The shared pagination tail of both `index` templates. -/
def indexBodyTail (modelName : Str) : Str :=
  str "\n      const totalPages = Math.ceil(totalItems / parseInt(limit, 10));\n      res.status(200).json(\x7b message: '" ++ modelName ++ str " list retrieved successfully', data: items, pagination: \x7b totalItems, totalPages, currentPage: parseInt(page, 10), itemsPerPage: parseInt(limit, 10) \x7d \x7d);\n    \x7d catch (error) \x7b next(error); \x7d"

/-- Source `getControllerMethodBody(crudType, modelName, orm)`: the template
table; an absent `(orm, crudType)` entry (only `custom` here) falls back to
the 501 stub. -/
def getControllerMethodBody (crudType : Crud) (modelName : Str) (orm : Orm) : Str :=
  let modelNameLower := lowerFirst modelName
  match orm, crudType with
  | _, .custom => customMethodBody
  | .mongoose, .index =>
    str "try \x7b\n      const Model = await getModel();\n      " ++ mongooseSearch ++ indexBodyTail modelName
  | .mongoose, .store =>
    str "try \x7b\n      const Model = await getModel();\n      const item = new Model(req.body);\n      await item.save();\n      res.status(201).json(\x7b message: '" ++ modelName ++ str " created successfully', data: item \x7d);\n    \x7d catch (error) \x7b next(error); \x7d"
  | .mongoose, .show =>
    str "try \x7b\n      const \x7b id \x7d = req.params;\n      const Model = await getModel();\n      const item = await Model.findById(id).lean();\n      if (!item) return res.status(404).json(\x7b message: '" ++ modelName ++ str " not found' \x7d);\n      res.status(200).json(\x7b message: '" ++ modelName ++ str " retrieved successfully', data: item \x7d);\n    \x7d catch (error) \x7b next(error); \x7d"
  | .mongoose, .update =>
    str "try \x7b\n      const \x7b id \x7d = req.params;\n      const Model = await getModel();\n      const item = await Model.findByIdAndUpdate(id, req.body, \x7b new: true, runValidators: true \x7d);\n      if (!item) return res.status(404).json(\x7b message: '" ++ modelName ++ str " not found' \x7d);\n      res.status(200).json(\x7b message: '" ++ modelName ++ str " updated successfully', data: item \x7d);\n    \x7d catch (error) \x7b next(error); \x7d"
  | .mongoose, .destroy =>
    str "try \x7b\n      const \x7b id \x7d = req.params;\n      const Model = await getModel();\n      const item = await Model.findByIdAndDelete(id);\n      if (!item) return res.status(404).json(\x7b message: '" ++ modelName ++ str " not found' \x7d);\n      res.status(200).json(\x7b message: '" ++ modelName ++ str " deleted successfully' \x7d);\n    \x7d catch (error) \x7b next(error); \x7d"
  | .prisma, .index =>
    str "try \x7b\n      " ++ prismaSearch modelNameLower ++ indexBodyTail modelName
  | .prisma, .store =>
    str "try \x7b\n      const item = await prisma." ++ modelNameLower ++ str ".create(\x7b data: req.body \x7d);\n      res.status(201).json(\x7b message: '" ++ modelName ++ str " created successfully', data: item \x7d);\n    \x7d catch (error) \x7b next(error); \x7d"
  | .prisma, .show =>
    str "try \x7b\n      const item = await prisma." ++ modelNameLower ++ str ".findUnique(\x7b where: \x7b id: parseInt(req.params.id, 10) \x7d \x7d);\n      if (!item) return res.status(404).json(\x7b message: '" ++ modelName ++ str " not found' \x7d);\n      res.status(200).json(\x7b message: '" ++ modelName ++ str " retrieved successfully', data: item \x7d);\n    \x7d catch (error) \x7b next(error); \x7d"
  | .prisma, .update =>
    str "try \x7b\n      const item = await prisma." ++ modelNameLower ++ str ".update(\x7b where: \x7b id: parseInt(req.params.id, 10) \x7d, data: req.body \x7d);\n      res.status(200).json(\x7b message: '" ++ modelName ++ str " updated successfully', data: item \x7d);\n    \x7d catch (error) \x7b next(error); \x7d"
  | .prisma, .destroy =>
    str "try \x7b\n      await prisma." ++ modelNameLower ++ str ".delete(\x7b where: \x7b id: parseInt(req.params.id, 10) \x7d \x7d);\n      res.status(200).json(\x7b message: '" ++ modelName ++ str " deleted successfully' \x7d);\n    \x7d catch (error) \x7b next(error); \x7d"

/-- Source `getMongooseControllerTemplate(controllerClassName, modelName)`. -/
def getMongooseControllerTemplate (controllerClassName modelName : Str) : Str :=
  str "const getModel = require('../models/" ++ modelName ++ str "');\n\nclass " ++ controllerClassName
  ++ str " \x7b\n  async index(req, res, next) \x7b\n    " ++ getControllerMethodBody .index modelName .mongoose
  ++ str "\n  \x7d\n\n  async store(req, res, next) \x7b\n    " ++ getControllerMethodBody .store modelName .mongoose
  ++ str "\n  \x7d\n\n  async show(req, res, next) \x7b\n    " ++ getControllerMethodBody .show modelName .mongoose
  ++ str "\n  \x7d\n\n  async update(req, res, next) \x7b\n    " ++ getControllerMethodBody .update modelName .mongoose
  ++ str "\n  \x7d\n\n  async destroy(req, res, next) \x7b\n    " ++ getControllerMethodBody .destroy modelName .mongoose
  ++ str "\n  \x7d\n\x7d\n\nmodule.exports = new " ++ controllerClassName ++ str "();\n"

/-- Source `getPrismaControllerTemplate(controllerClassName, modelName)`. -/
def getPrismaControllerTemplate (controllerClassName modelName : Str) : Str :=
  str "const \x7b prisma \x7d = require('../../config/database');\n\nclass " ++ controllerClassName
  ++ str " \x7b\n  async index(req, res, next) \x7b\n    " ++ getControllerMethodBody .index modelName .prisma
  ++ str "\n  \x7d\n\n  async store(req, res, next) \x7b\n    " ++ getControllerMethodBody .store modelName .prisma
  ++ str "\n  \x7d\n\n  async show(req, res, next) \x7b\n    " ++ getControllerMethodBody .show modelName .prisma
  ++ str "\n  \x7d\n\n  async update(req, res, next) \x7b\n    " ++ getControllerMethodBody .update modelName .prisma
  ++ str "\n  \x7d\n\n  async destroy(req, res, next) \x7b\n    " ++ getControllerMethodBody .destroy modelName .prisma
  ++ str "\n  \x7d\n\x7d\n\nmodule.exports = new " ++ controllerClassName ++ str "();\n"

/-- Source `getControllerTemplate(modelName, orm)`. -/
def getControllerTemplate (modelName : Str) (orm : Orm) : Str :=
  let controllerClassName := modelName ++ str "Controller"
  match orm with
  | .prisma => getPrismaControllerTemplate controllerClassName modelName
  | .mongoose => getMongooseControllerTemplate controllerClassName modelName

/-- The default `fields` argument of `getMongooseModelTemplate`. -/
def defaultMongooseFields : Str :=
  str "\x7b\n    name: \x7b type: String, required: true, trim: true \x7d,\n    // Add more fields here\n  \x7d"

/-- Source `getMongooseModelTemplate(name, conn, fields)`. -/
def getMongooseModelTemplate (name conn fields : Str) : Str :=
  str "const mongoose = require('mongoose');\nconst \x7b Schema \x7d = mongoose;\nconst \x7b getConnection \x7d = require('../../config/database');\n\nconst "
  ++ toLowerStr name ++ str "Schema = new Schema(\n  " ++ fields
  ++ str ",\n  \x7b timestamps: true \x7d\n);\n\nmodule.exports = async () => \x7b\n  const conn = await getConnection('"
  ++ conn ++ str "');\n  return conn.model('" ++ name ++ str "', " ++ toLowerStr name
  ++ str "Schema);\n\x7d;\n"

/-- Source `getPrismaModelTemplate(name)`: the placeholder relational model. -/
def getPrismaModelTemplate (name : Str) : Str :=
  str "model " ++ name ++ str " \x7b\n  id        Int      @id @default(autoincrement())\n  name      String\n  // Add other fields here, e.g.,\n  // description String?\n  // price       Float    @default(0)\n\n  createdAt DateTime @default(now())\n  updatedAt DateTime @updatedAt\n\x7d"

/-- Source `getRouteTemplate(name, controllerName)`. -/
def getRouteTemplate (name controllerName : Str) : Str :=
  let modelName := replaceFirst (str "Controller") [] controllerName
  str "const express = require('express');\nconst router = express.Router();\nconst "
  ++ controllerName ++ str " = require('../controllers/" ++ controllerName
  ++ str "');\nconst authMiddleware = require('../middleware/authMiddleware');\nconst "
  ++ toLowerStr modelName ++ str "Validator = require('../validators/" ++ modelName
  ++ str "Validator');\n\nrouter.get('/', authMiddleware, " ++ controllerName
  ++ str ".index);\nrouter.post('/', authMiddleware, " ++ toLowerStr modelName
  ++ str "Validator.store, " ++ controllerName
  ++ str ".store);\nrouter.get('/:id', authMiddleware, " ++ controllerName
  ++ str ".show);\nrouter.put('/:id', authMiddleware, " ++ toLowerStr modelName
  ++ str "Validator.update, " ++ controllerName
  ++ str ".update);\nrouter.delete('/:id', authMiddleware, " ++ controllerName
  ++ str ".destroy);\n\nmodule.exports = router;\n"

/-- Source `getValidatorTemplate(modelName)`. -/
def getValidatorTemplate (modelName : Str) : Str :=
  str "const \x7b body \x7d = require('express-validator');\n\nconst " ++ toLowerStr modelName
  ++ str "Validator = \x7b\n  store: [\n    body('name')\n      .notEmpty().withMessage('Name is required')\n      .isString().withMessage('Name must be a string')\n      .trim(),\n  ],\n  update: [\n    body('name')\n      .optional()\n      .isString().withMessage('Name must be a string')\n      .trim(),\n  ],\n\x7d;\n\nmodule.exports = " ++ toLowerStr modelName ++ str "Validator;\n"

-- --- File-system model and the make:* commands ---

/-- The project's files: an association list from project-relative path to
content.  `createFile` only ever appends; appends and updates keep the
first occurrence of a key authoritative. -/
abbrev FS := List (Str × Str)

def lookupFS : FS → Str → Option Str
  | [], _ => none
  | (p, c) :: rest, q => if p = q then some c else lookupFS rest q

/-- Overwrite the content stored at `p` (append when absent); models
`fs.writeFileSync` / `fs.appendFileSync` on an existing file. -/
def setFS : FS → Str → Str → FS
  | [], p, c => [(p, c)]
  | (q, d) :: rest, p, c => if q = p then (p, c) :: rest else (q, d) :: setFS rest p c

/-- `os.EOL` on the modelled platform. -/
def eol : Str := str "\n"

/-- What one file operation prints. -/
inductive FsEvent
  | created (path : Str)
  | skipped (path : Str)
  | appendedPrismaModel (name : Str)
  | errorNoPrismaSchema
  | registered (resource : Str)
  | alreadyRegistered (resource : Str)
  | manualInstructions (resource : Str)
deriving DecidableEq

/-- Source `createFile(filePath, content)`: skip when the file already
exists, else write it. -/
def createFile (fs : FS) (p content : Str) : FS × FsEvent :=
  match lookupFS fs p with
  | some _ => (fs, .skipped p)
  | none => (fs ++ [(p, content)], .created p)

/-- Source `registerRoute` acting on the modelled file system:
reads `app/routes/index.js` (the `catch` branch prints the manual-edit
instructions when it cannot be read) and applies the pure core. -/
def registerRouteFS (resourceName routeFileName : Str) (fs : FS) : FS × FsEvent :=
  match lookupFS fs (str "app/routes/index.js") with
  | none => (fs, .manualInstructions resourceName)
  | some content =>
    let imp := routeImportLine resourceName routeFileName
    if includesStr imp content then (fs, .alreadyRegistered resourceName)
    else
      (setFS fs (str "app/routes/index.js")
        (replaceFirst routerHook
          (imp ++ str "\n" ++ routeUsageLine resourceName ++ str "\n\n" ++ routerHook) content),
       .registered resourceName)

/-- `app/models/<name>.js`. -/
def modelPathOf (name : Str) : Str := str "app/models/" ++ name ++ str ".js"

/-- `app/controllers/<name>Controller.js`. -/
def controllerPathOf (name : Str) : Str := str "app/controllers/" ++ name ++ str "Controller.js"

/-- `app/validators/<name>Validator.js`. -/
def validatorPathOf (name : Str) : Str := str "app/validators/" ++ name ++ str "Validator.js"

/-- `app/routes/<file>`. -/
def routesPathOf (file : Str) : Str := str "app/routes/" ++ file

/-- Source `createController(name, orm, projectPath)`. -/
def createController (name : Str) (orm : Orm) (fs : FS) : FS × List FsEvent :=
  let modelName := replaceFirst (str "Controller") [] name
  let r1 := createFile fs (controllerPathOf name) (getControllerTemplate modelName orm)
  let r2 := createFile r1.1 (validatorPathOf modelName) (getValidatorTemplate modelName)
  (r2.1, [r1.2, r2.2])

/-- Source `createModel(name, orm, options, projectPath)`: mongoose models
go through `createFile`; the prisma branch unconditionally appends the
model block to `prisma/schema.prisma` (erroring only when that file is
absent). -/
def createModel (name : Str) (orm : Orm) (connection : Option Str) (fs : FS) :
    FS × List FsEvent :=
  match orm with
  | .mongoose =>
    let connectionName := connection.getD (str "default")
    let r := createFile fs (modelPathOf name)
        (getMongooseModelTemplate name connectionName defaultMongooseFields)
    (r.1, [r.2])
  | .prisma =>
    match lookupFS fs (str "prisma/schema.prisma") with
    | none => (fs, [.errorNoPrismaSchema])
    | some content =>
      (setFS fs (str "prisma/schema.prisma")
        (content ++ eol ++ eol ++ getPrismaModelTemplate name),
       [.appendedPrismaModel name])

/-- Source `createRouteFile(name, routeFileName, projectPath)`. -/
def createRouteFile (name : Str) (routeFileName : Option Str) (fs : FS) :
    FS × List FsEvent :=
  let controllerName := upperFirst name ++ str "Controller"
  let actualRouteFileName := routeFileName.getD (name ++ str "Routes.js")
  let r1 := createFile fs (routesPathOf actualRouteFileName)
      (getRouteTemplate name controllerName)
  let r2 := registerRouteFS name actualRouteFileName r1.1
  (r2.1, [r1.2, r2.2])

/-- Source `createResource(name, orm, projectPath)`: model, controller,
route file, router registration. -/
def createResource (name : Str) (orm : Orm) (fs : FS) : FS × List FsEvent :=
  let r1 := createModel name orm none fs
  let r2 := createController name orm r1.1
  let routeFileName := toLowerStr name ++ str "Routes.js"
  let r3 := createRouteFile (toLowerStr name) (some routeFileName) r2.1
  (r3.1, r1.2 ++ r2.2 ++ r3.2)

-- --- OpenAPI data model ---

/-- One OpenAPI operation, as the generator reads it. -/
structure Operation where
  operationId : Option Str
  tags : List Str
  summary : Option Str
deriving DecidableEq

/-- One OpenAPI schema object from `components.schemas`. -/
structure SchemaObj where
  type : Option Str
  properties : Option (List (Str × PropSchema))
  required : Option (List Str)
deriving DecidableEq

/-- A path item: `httpMethod → Operation` in object-key order. -/
abbrev PathOps := List (Str × Operation)

/-- The parsed, dereferenced spec as the generator consumes it:
`spec.components?.schemas || {}` and `spec.paths || {}`. -/
structure SpecDoc where
  schemas : List (Str × SchemaObj)
  paths : List (Str × PathOps)
deriving DecidableEq

/-- Association-list lookup, JS object property access. -/
def lookupA {α : Type} : List (Str × α) → Str → Option α
  | [], _ => none
  | (k, v) :: rest, q => if k = q then some v else lookupA rest q

/-- JS truthiness on an optional string: `undefined` and `""` are falsy. -/
def truthyStr : Option Str → Option Str
  | none => none
  | some [] => none
  | some s => some s

/-- JS `a || d` where `a` is an optional string. -/
def jsOrStr : Option Str → Str → Str
  | none, d => d
  | some [], d => d
  | some s, _ => s

/-- JS `schema.required?.includes(propName)` coerced to a Bool. -/
def requiredIncludes (schema : SchemaObj) (propName : Str) : Bool :=
  match schema.required with
  | none => false
  | some l => propName ∈ l

/-- The string the source's template literal prints for a `Crud` value. -/
def crudString : Crud → Str
  | .custom => str "custom"
  | .store => str "store"
  | .update => str "update"
  | .destroy => str "destroy"
  | .show => str "show"
  | .index => str "index"

-- --- Resource Grouper (source: generateRoutesAndControllersFromSpec, first loop) ---

/-- `(route.split("/")[1] || "").replace(/[^a-zA-Z0-9]/g, "")`. -/
def resourceNameGuess (route : Str) : Str :=
  sanitizeAlnum ((List.splitOn '/' route).getD 1 [])

/-- `pathDetails.<m>?.tags?.[0]`. -/
def tagHint (pathDetails : PathOps) (m : Str) : Option Str :=
  match lookupA pathDetails m with
  | none => none
  | some op => op.tags.head?

/-- The per-resource bucket: `route → pathDetails` in insertion order. -/
abbrev ResourcePaths := List (Str × PathOps)

/-- `resources[capitalizedName].paths[route] = pathDetails` over an
insertion-ordered object. -/
def insertRoute (acc : List (Str × ResourcePaths)) (key route : Str) (pd : PathOps) :
    List (Str × ResourcePaths) :=
  match acc with
  | [] => [(key, [(route, pd)])]
  | (k, rp) :: rest =>
    if k = key then (k, rp ++ [(route, pd)]) :: rest
    else (k, rp) :: insertRoute rest key route pd

/-- The grouping loop of `generateRoutesAndControllersFromSpec`: guess a
name from the first path segment, let `tags[0]` of the `get` then `post`
operation override it, capitalize, and bucket the route; an empty guess
skips the route. -/
def groupResources (paths : List (Str × PathOps)) : List (Str × ResourcePaths) :=
  paths.foldl
    (fun acc rp =>
      let route := rp.1
      let pathDetails := rp.2
      let guess := resourceNameGuess route
      if guess = [] then acc
      else
        let resourceName :=
          jsOrStr (tagHint pathDetails (str "get"))
            (jsOrStr (tagHint pathDetails (str "post")) guess)
        insertRoute acc (upperFirst resourceName) route pathDetails)
    []

/-- `resourceName.endsWith("s") ? resourceName.slice(0, -1) : resourceName`. -/
def singularNameOf (resourceName : Str) : Str :=
  if resourceName.getLast? = some 's' then resourceName.dropLast else resourceName

-- --- Validator generation (source: generateValidatorFromSpec) ---

/-- The `typeMap` of `generateValidatorFromSpec`. -/
def validatorTypeEntry (t : Str) : Option Str :=
  if t = str "string" then some (str "isString")
  else if t = str "integer" then some (str "isInt")
  else if t = str "number" then some (str "isFloat")
  else if t = str "boolean" then some (str "isBoolean")
  else none

/-- Concatenation of a list of strings (JS `array.join("")`). -/
def concatStr (l : List Str) : Str := l.foldr (· ++ ·) []

/-- JS `array.join(sep)`. -/
def joinWith (sep : Str) : List Str → Str
  | [] => []
  | [x] => x
  | x :: xs => x ++ sep ++ joinWith sep xs

/-- The `storeChain` array built for one property. -/
def storeChainOf (schema : SchemaObj) (propName : Str) (prop : PropSchema) : List Str :=
  let c1 := [str "body('" ++ propName ++ str "')"]
    ++ (if requiredIncludes schema propName then
          [str ".notEmpty().withMessage('" ++ propName ++ str " is required')"]
        else [])
  let c2 := c1
    ++ (match prop.type with
        | some t =>
          match validatorTypeEntry t with
          | some fn =>
            [str "." ++ fn ++ str "().withMessage('" ++ propName ++ str " must be a " ++ t ++ str "')"]
          | none => []
        | none => [])
  let c3 := c2
    ++ (if prop.type = some (str "string") ∧ prop.format = some (str "email") then
          [str ".isEmail().withMessage('Invalid email format').normalizeEmail()"]
        else [])
  c3 ++ (if prop.type = some (str "string") then [str ".trim()"] else [])

/-- The text identifier declared inside the emitted validator file:
`${resourceName.toLowerCase()}Validator`. -/
def validatorDeclIdent (resourceName : Str) : Str :=
  toLowerStr resourceName ++ str "Validator"

/-- The validator file text `generateValidatorFromSpec` writes, given the
schema's property list. -/
def validatorFileContentOf (resourceName : Str) (schema : SchemaObj)
    (props : List (Str × PropSchema)) : Str :=
  let storeRules := props.map
    (fun pr => str "  " ++ concatStr (storeChainOf schema pr.1 pr.2))
  let updateRules := props.map
    (fun pr => str "  body('" ++ pr.1 ++ str "').optional()"
      ++ concatStr ((storeChainOf schema pr.1 pr.2).drop 1))
  str "const \x7b body \x7d = require('express-validator');\n\nconst "
  ++ validatorDeclIdent resourceName
  ++ str " = \x7b\n  store: [\n" ++ joinWith (str ",\n") storeRules
  ++ str "\n  ],\n  update: [\n" ++ joinWith (str ",\n") updateRules
  ++ str "\n  ],\n\x7d;\n\nmodule.exports = " ++ validatorDeclIdent resourceName ++ str ";"

/-- Source `generateValidatorFromSpec(resourceName, schema, projectPath)`:
`none` models the early return (`!schema.properties`), otherwise the full
file text that is written. -/
def generateValidatorContent (resourceName : Str) (schema : SchemaObj) : Option Str :=
  match schema.properties with
  | none => none
  | some props => some (validatorFileContentOf resourceName schema props)

-- --- Model generation (source: generateModelsFromSpec) ---

/-- What the OpenAPI generation pipeline does, as an event log: each
`calledCreateFile` is one `createFile(path, content)` call, each
`appendedPrisma` one `fs.appendFileSync` onto `prisma/schema.prisma`. -/
inductive GenEvent
  | calledCreateFile (path content : Str)
  | appendedPrisma (text : Str)
  | warnedNoSchemas
  | warnedNoPaths
  | registeredRoute (resourceName routeFileName : Str)
deriving DecidableEq

/-- One mongoose field line of `generateModelsFromSpec`. -/
def mongooseFieldOf (schema : SchemaObj) (propName : Str) (prop : PropSchema) : Str :=
  str "\n    " ++ propName ++ str ": \x7b type: " ++ openApiTypeToMongooseType prop.type
  ++ (if requiredIncludes schema propName then str ", required: true" else [])
  ++ (if prop.type = some (str "string") then str ", trim: true" else [])
  ++ str " \x7d,"

/-- The `fields` argument `generateModelsFromSpec` passes to the mongoose
model template: `{${modelFields}\n  }`. -/
def mongooseFieldsOf (schema : SchemaObj) (props : List (Str × PropSchema)) : Str :=
  str "\x7b" ++ concatStr (props.map fun pr => mongooseFieldOf schema pr.1 pr.2) ++ str "\n  \x7d"

/-- JS `s.padEnd(n)`. -/
def padEnd (s : Str) (n : Nat) : Str := s ++ List.replicate (n - s.length) ' '

/-- One prisma field line of `generateModelsFromSpec` (fields named `id`,
case-insensitively, are skipped). -/
def prismaFieldOf (schema : SchemaObj) (propName : Str) (prop : PropSchema) : Str :=
  str "\n  " ++ padEnd propName 12 ++ openApiTypeToPrismaType prop
  ++ (if requiredIncludes schema propName then [] else str "?")

/-- The prisma model block `generateModelsFromSpec` appends. -/
def prismaModelBlockOf (schemaName : Str) (schema : SchemaObj)
    (props : List (Str × PropSchema)) : Str :=
  let modelFields := concatStr
    ((props.filter (fun pr => toLowerStr pr.1 ≠ str "id")).map
      (fun pr => prismaFieldOf schema pr.1 pr.2))
  str "model " ++ schemaName
  ++ str " \x7b\n  id          Int      @id @default(autoincrement())\n  "
  ++ modelFields
  ++ str "\n\n  createdAt   DateTime @default(now())\n  updatedAt   DateTime @updatedAt\n\x7d"

/-- Source `generateModelsFromSpec(spec, orm, projectPath)`: warns and stops
when there are no schemas at all; otherwise emits one model per
object-typed schema with properties — nothing is emitted for any other
name. -/
def generateModelsFromSpec (spec : SpecDoc) (orm : Orm) : List GenEvent :=
  if spec.schemas.isEmpty then [.warnedNoSchemas]
  else
    spec.schemas.flatMap fun pr =>
      let schemaName := pr.1
      let schema := pr.2
      match schema.properties with
      | none => []
      | some props =>
        if schema.type ≠ some (str "object") then []
        else
          match orm with
          | .mongoose =>
            [.calledCreateFile (modelPathOf schemaName)
              (getMongooseModelTemplate schemaName (str "default") (mongooseFieldsOf schema props))]
          | .prisma =>
            [.appendedPrisma (eol ++ eol ++ prismaModelBlockOf schemaName schema props)]

-- --- Artifact Emitter (source: generateRoutesAndControllersFromSpec, second loop) ---

/-- Flatten one resource bucket into its `(route, httpMethod, Operation)`
triples, in the nested-loop order of the source. -/
def opsOfResource (rp : ResourcePaths) : List (Str × Str × Operation) :=
  rp.flatMap (fun pr => pr.2.map (fun mo => (pr.1, mo.1, mo.2)))

/-- The text appended to `controllerMethods` for one operation; empty for a
falsy `operationId` (the `continue`). -/
def controllerMethodTextOf (singularName : Str) (orm : Orm)
    (t : Str × Str × Operation) : Str :=
  match truthyStr t.2.2.operationId with
  | none => []
  | some oid =>
    let crudType := identifyCrudType (some oid) t.2.1 t.1
    str "\n  /**\n   * " ++ jsOrStr t.2.2.summary oid ++ str "\n   */\n  async " ++ oid
    ++ str "(req, res, next) \x7b\n    " ++ getControllerMethodBody crudType singularName orm
    ++ str "\n  \x7d\n"

/-- `route.replace(/{/g, ":").replace(/}/g, "")`. -/
def toExpressRoute (route : Str) : Str :=
  removeAllChar '}' (replaceAllChar '{' ':' route)

/-- The text appended to `routeEntries` for one operation; empty for a
falsy `operationId` (the `continue`). -/
def routeEntryTextOf (schemaPresent : Bool) (controllerName validatorName : Str)
    (t : Str × Str × Operation) : Str :=
  match truthyStr t.2.2.operationId with
  | none => []
  | some oid =>
    let crudType := identifyCrudType (some oid) t.2.1 t.1
    let validatorMiddleware :=
      if schemaPresent ∧ (crudType = Crud.store ∨ crudType = Crud.update) then
        validatorName ++ str "." ++ crudString crudType ++ str ", "
      else []
    str "router." ++ t.2.1 ++ str "('" ++ toExpressRoute t.1 ++ str "', "
    ++ validatorMiddleware ++ controllerName ++ str "." ++ oid ++ str ");\n"

/-- The route-file text for one resource. -/
def routeFileContentOf (controllerName validatorName singularName : Str)
    (schemaPresent : Bool) (routeEntries : Str) : Str :=
  let validatorImport :=
    if schemaPresent then
      str "const " ++ validatorName ++ str " = require('../validators/"
        ++ singularName ++ str "Validator');"
    else str "// TODO: Create and import validator for this resource"
  str "const express = require('express');\nconst router = express.Router();\nconst "
  ++ controllerName ++ str " = require('../controllers/" ++ controllerName ++ str "');\n"
  ++ validatorImport ++ str "\n\n" ++ routeEntries ++ str "\nmodule.exports = router;"

/-- The controller-file text for one resource. -/
def controllerFileContentOf (controllerName singularName : Str) (orm : Orm)
    (controllerMethods : Str) : Str :=
  let modelImport :=
    match orm with
    | .mongoose => str "const getModel = require('../models/" ++ singularName ++ str "');"
    | .prisma => str "const \x7b prisma \x7d = require('../../config/database');"
  modelImport ++ str "\n\nclass " ++ controllerName ++ str " \x7b" ++ controllerMethods
  ++ str "\n\x7d\n\nmodule.exports = new " ++ controllerName ++ str "();"

/-- The body of the per-resource loop of
`generateRoutesAndControllersFromSpec`, as its event list. -/
def emitResource (schemas : List (Str × SchemaObj)) (orm : Orm)
    (entry : Str × ResourcePaths) : List GenEvent :=
  let singularName := singularNameOf entry.1
  let lowerCaseResource := lowerFirst singularName
  let controllerName := singularName ++ str "Controller"
  let routeFileName := lowerCaseResource ++ str "Routes.js"
  let validatorName := lowerCaseResource ++ str "Validator"
  let schema := lookupA schemas singularName
  let validatorEvents :=
    match schema with
    | none => []
    | some sch =>
      match generateValidatorContent singularName sch with
      | none => []
      | some content =>
        [GenEvent.calledCreateFile (validatorPathOf singularName) content]
  let ops := opsOfResource entry.2
  let controllerMethods := concatStr (ops.map (controllerMethodTextOf singularName orm))
  let routeEntries := concatStr (ops.map (routeEntryTextOf schema.isSome controllerName validatorName))
  validatorEvents
  ++ [GenEvent.calledCreateFile (str "app/controllers/" ++ controllerName ++ str ".js")
        (controllerFileContentOf controllerName singularName orm controllerMethods)]
  ++ [GenEvent.calledCreateFile (routesPathOf routeFileName)
        (routeFileContentOf controllerName validatorName singularName schema.isSome routeEntries)]
  ++ [GenEvent.registeredRoute lowerCaseResource routeFileName]

/-- Source `generateRoutesAndControllersFromSpec(spec, orm, projectPath)`. -/
def generateRoutesAndControllersFromSpec (spec : SpecDoc) (orm : Orm) : List GenEvent :=
  if spec.paths.isEmpty then [.warnedNoPaths]
  else (groupResources spec.paths).flatMap (emitResource spec.schemas orm)

-- --- Project Bootstrapper (source: initFromOpenAPI) ---

/-- The successive actions of `initFromOpenAPI`, in program order. -/
inductive InitStep
  | parseSpec
  | exitFailure
  | promptUser
  | checkTargetDir
  | createProjectStructure
  | createCoreFiles
  | generateModels
  | generateRoutesAndControllers
  | scaffoldAuth
  | installDependencies
  | startDevServer
deriving DecidableEq

/-- Source `initFromOpenAPI(filePath)` as a trace: `SwaggerParser.bundle`
runs first and a failure (`parseResult = none`) hits the `catch` that
calls `process.exit(1)`; only a successful parse reaches the prompt, the
existing-directory check, and the write phases. -/
def initFromOpenAPI (parseResult : Option SpecDoc) (targetDirExists : Bool) : List InitStep :=
  match parseResult with
  | none => [.parseSpec, .exitFailure]
  | some _ =>
    [.parseSpec, .promptUser, .checkTargetDir]
    ++ (if targetDirExists then [.exitFailure]
        else [.createProjectStructure, .createCoreFiles, .generateModels,
              .generateRoutesAndControllers, .scaffoldAuth, .installDependencies,
              .startDevServer])

/-- The steps that create project files or directories. -/
def writesFiles : InitStep → Bool
  | .createProjectStructure => true
  | .createCoreFiles => true
  | .generateModels => true
  | .generateRoutesAndControllers => true
  | .scaffoldAuth => true
  | _ => false

-- --- Concrete fixtures used by witnesses and counterexamples ---

/-- The `Product` schema of the spec's end-to-end scenario. -/
def productSchema : SchemaObj :=
  { type := some (str "object"),
    properties := some [(str "name", ⟨some (str "string"), none⟩),
                        (str "price", ⟨some (str "number"), none⟩)],
    required := some [str "name"] }

/-- The spec's end-to-end scenario document. -/
def demoSpec : SpecDoc :=
  { schemas := [(str "Product", productSchema)],
    paths := [
      (str "/products",
        [(str "get", ⟨some (str "listProducts"), [], none⟩),
         (str "post", ⟨some (str "createProduct"), [], none⟩)]),
      (str "/products/{id}",
        [(str "get", ⟨some (str "getProductById"), [], none⟩)])] }

/-- A schema for a multi-word resource name. -/
def upSchema : SchemaObj :=
  { type := some (str "object"),
    properties := some [(str "bio", ⟨some (str "string"), none⟩)],
    required := none }

/-- The single operation of the multi-word fixture. -/
def upOperation : Operation := ⟨some (str "listUserProfiles"), [], none⟩

/-- An OpenAPI document with the multi-word resource `/userProfiles`. -/
def upSpec : SpecDoc :=
  { schemas := [(str "UserProfile", upSchema)],
    paths := [(str "/userProfiles", [(str "get", upOperation)])] }

/-- The validator file the pipeline emits for `UserProfile`. -/
def upValidatorContent : Str :=
  validatorFileContentOf (str "UserProfile") upSchema
    [(str "bio", ⟨some (str "string"), none⟩)]

/-- The route file the pipeline emits for `UserProfile`. -/
def upRouteContent : Str :=
  routeFileContentOf (str "UserProfileController") (str "userProfileValidator")
    (str "UserProfile") true
    (concatStr ([((str "/userProfiles" : Str), ((str "get" : Str), upOperation))].map
      (routeEntryTextOf true (str "UserProfileController") (str "userProfileValidator"))))

/-- A document with a schemaless `/widgets` group next to a normal
`/products` group. -/
def c6Spec : SpecDoc :=
  { schemas := [(str "Product", productSchema)],
    paths := [
      (str "/widgets", [(str "get", ⟨some (str "listWidgets"), [], none⟩)]),
      (str "/products", [(str "get", ⟨some (str "listProducts"), [], none⟩)])] }

/-- The route file the pipeline emits for the schemaless `Widget` group. -/
def c6WidgetRouteContent : Str :=
  routeFileContentOf (str "WidgetController") (str "widgetValidator") (str "Widget") false
    (concatStr
      ([((str "/widgets" : Str),
         ((str "get" : Str), (⟨some (str "listWidgets"), [], none⟩ : Operation)))].map
        (routeEntryTextOf false (str "WidgetController") (str "widgetValidator"))))

/-- Does an event emit a `Widget` model file, or the no-schemas warning? -/
def widgetModelOrWarning : GenEvent → Bool
  | .calledCreateFile p _ => p = str "app/models/Widget.js"
  | .warnedNoSchemas => true
  | _ => false

/-- A document whose only operation has no `operationId`. -/
def w7Spec : SpecDoc :=
  { schemas := [],
    paths := [(str "/widgets", [(str "get", ⟨none, [], none⟩)])] }

/-- The controller the pipeline emits for `w7Spec`: no methods at all. -/
def w7ControllerContent : Str :=
  controllerFileContentOf (str "WidgetController") (str "Widget") Orm.mongoose []

/-- The route file the pipeline emits for `w7Spec`: no entries at all. -/
def w7RouteContent : Str :=
  routeFileContentOf (str "WidgetController") (str "widgetValidator") (str "Widget") false []

/-- A project file system holding only a seeded `prisma/schema.prisma`. -/
def prismaFs : FS := [(str "prisma/schema.prisma", str "// base")]

/-- The `Products` resource bucket `groupResources` builds from `demoSpec`. -/
def productsEntry : Str × ResourcePaths :=
  (str "Products",
   [(str "/products",
     [(str "get", ⟨some (str "listProducts"), [], none⟩),
      (str "post", ⟨some (str "createProduct"), [], none⟩)]),
    (str "/products/{id}",
     [(str "get", ⟨some (str "getProductById"), [], none⟩)])])

/-- The `getProductById` triple inside `productsEntry`. -/
def productByIdOp : Str × Str × Operation :=
  (str "/products/{id}", (str "get", ⟨some (str "getProductById"), [], none⟩))

/-- The `Widgets` resource bucket `groupResources` builds from `c6Spec`. -/
def widgetsEntry : Str × ResourcePaths :=
  (str "Widgets", [(str "/widgets", [(str "get", ⟨some (str "listWidgets"), [], none⟩)])])

/-- The `UserProfiles` resource bucket `groupResources` builds from `upSpec`. -/
def upEntry : Str × ResourcePaths :=
  (str "UserProfiles", [(str "/userProfiles", [(str "get", upOperation)])])

end CodingExpress

-- ===== THEOREMS =====

namespace CodingExpress

theorem firstSplit_eq_some (pat : Str) :
    ∀ s a b : Str, firstSplit pat s = some (a, b) → s = a ++ pat ++ b := by
  intro s
  induction s with
  | nil =>
    intro a b h
    simp only [firstSplit] at h
    by_cases hp : pat.isPrefixOf ([] : Str)
    · have hpat : pat = [] :=
        List.prefix_nil.mp (List.isPrefixOf_iff_prefix.mp hp)
      simp [hp] at h
      obtain ⟨ha, hb⟩ := h
      subst ha; subst hb
      simp [hpat]
    · simp [hp] at h
  | cons c rest ih =>
    intro a b h
    simp only [firstSplit] at h
    by_cases hp : pat.isPrefixOf (c :: rest)
    · simp [hp] at h
      obtain ⟨ha, hb⟩ := h
      obtain ⟨t, ht⟩ := List.isPrefixOf_iff_prefix.mp hp
      have hdrop : (c :: rest).drop pat.length = t := by
        rw [← ht]
        exact List.drop_left pat t
      subst ha
      rw [← hb, hdrop, ← ht]
      simp
    · simp only [hp, if_false, Bool.false_eq_true] at h
      cases hfs : firstSplit pat rest with
      | some p =>
        obtain ⟨a', b'⟩ := p
        rw [hfs] at h
        simp at h
        obtain ⟨ha, hb⟩ := h
        have := ih a' b' hfs
        rw [← ha, ← hb, this]
        simp
      | none => rw [hfs] at h; simp at h

theorem firstSplit_eq_none (pat : Str) :
    ∀ s : Str, firstSplit pat s = none → ¬ pat <:+: s := by
  intro s
  induction s with
  | nil =>
    intro h hinf
    simp only [firstSplit] at h
    have : pat = [] := List.infix_nil.mp hinf
    simp [this, List.isPrefixOf] at h
  | cons c rest ih =>
    intro h hinf
    simp only [firstSplit] at h
    by_cases hp : pat.isPrefixOf (c :: rest)
    · simp [hp] at h
    · simp only [hp, if_false, Bool.false_eq_true] at h
      rcases List.infix_cons_iff.mp hinf with hpre | hrest
      · exact hp (List.isPrefixOf_iff_prefix.mpr hpre)
      · cases hfs : firstSplit pat rest with
        | some p => rw [hfs] at h; cases p; simp at h
        | none => exact ih hfs hrest

theorem includesStr_iff_contains (pat s : Str) :
    includesStr pat s = true ↔ pat <:+: s := by
  constructor
  · intro h
    unfold includesStr at h
    cases hfs : firstSplit pat s with
    | none => rw [hfs] at h; simp at h
    | some p =>
      obtain ⟨a, b⟩ := p
      have := firstSplit_eq_some pat s a b hfs
      exact ⟨a, b, this.symm⟩
  · intro h
    unfold includesStr
    cases hfs : firstSplit pat s with
    | none => exact absurd h (firstSplit_eq_none pat s hfs)
    | some p => simp

theorem replaceFirst_of_absent (pat repl s : Str) (h : ¬ pat <:+: s) :
    replaceFirst pat repl s = s := by
  unfold replaceFirst
  cases hfs : firstSplit pat s with
  | none => rfl
  | some p =>
    obtain ⟨a, b⟩ := p
    exact absurd ⟨a, b, (firstSplit_eq_some pat s a b hfs).symm⟩ h

theorem replaceFirst_eq_append (pat repl s : Str) (h : pat <:+: s) :
    ∃ a b : Str, replaceFirst pat repl s = a ++ repl ++ b := by
  unfold replaceFirst
  cases hfs : firstSplit pat s with
  | none => exact absurd h (firstSplit_eq_none pat s hfs)
  | some p =>
    obtain ⟨a, b⟩ := p
    exact ⟨a, b, rfl⟩

/-- After a fresh registration, the import line occurs in the output. -/
theorem importLine_infix_after_register (r f s : Str)
    (hin : includesStr (routeImportLine r f) s = false) :
    routerHook <:+: s →
      routeImportLine r f <:+:
        (registerRouteContent r f s).1 := by
  intro hhook
  unfold registerRouteContent
  simp only [hin, Bool.false_eq_true, if_false]
  obtain ⟨a, b, hab⟩ := replaceFirst_eq_append routerHook
    (routeImportLine r f ++ str "\n" ++ routeUsageLine r ++ str "\n\n" ++ routerHook) s hhook
  rw [hab]
  have hpre : routeImportLine r f <+:
      routeImportLine r f ++ str "\n" ++ routeUsageLine r ++ str "\n\n" ++ routerHook := by
    refine ⟨str "\n" ++ routeUsageLine r ++ str "\n\n" ++ routerHook, by simp⟩
  exact hpre.isInfix.trans (List.infix_append a _ b)

/-- The branch taken when the import line is already present. -/
theorem registerRouteContent_already (r f s : Str)
    (h : includesStr (routeImportLine r f) s = true) :
    registerRouteContent r f s = (s, RegOutcome.alreadyRegistered) := by
  unfold registerRouteContent
  simp [h]

/-- The branch taken when the import line is absent. -/
theorem registerRouteContent_fresh (r f s : Str)
    (h : includesStr (routeImportLine r f) s = false) :
    registerRouteContent r f s =
      (replaceFirst routerHook
        (routeImportLine r f ++ str "\n" ++ routeUsageLine r ++ str "\n\n" ++ routerHook) s,
       RegOutcome.registered) := by
  unfold registerRouteContent
  simp [h]

/-- Registering the same resource a second time never changes the text. -/
theorem registerRouteContent_idem (r f s : Str) :
    (registerRouteContent r f (registerRouteContent r f s).1).1 =
      (registerRouteContent r f s).1 := by
  by_cases hin : includesStr (routeImportLine r f) s = true
  · rw [registerRouteContent_already r f s hin, registerRouteContent_already r f s hin]
  · have hin' : includesStr (routeImportLine r f) s = false := by
      simpa using hin
    by_cases hhook : routerHook <:+: s
    · have hinf := importLine_infix_after_register r f s hin' hhook
      have hin2 : includesStr (routeImportLine r f) ((registerRouteContent r f s).1) = true :=
        (includesStr_iff_contains _ _).mpr hinf
      rw [registerRouteContent_already r f _ hin2]
    · have hrf : replaceFirst routerHook
          (routeImportLine r f ++ str "\n" ++ routeUsageLine r ++ str "\n\n" ++ routerHook) s = s :=
        replaceFirst_of_absent _ _ _ hhook
      have h1 : (registerRouteContent r f s).1 = s := by
        rw [registerRouteContent_fresh r f s hin']
        exact hrf
      rw [h1]
      exact h1

end CodingExpress

namespace CodingExpress

/-- C2 (amended): `identifyCrudType` is total over the six `Crud` kinds and
implements the strict-priority rule list with first match winning: no (or
empty) operationId gives custom; the `create|add|store`, `update|patch|edit`
and `delete|remove|destroy` anchored prefixes give store, update, destroy;
the `get|find|show|retrieve …ById/One` rule gives show; the anchored
`list|get|find|index|search` prefix gives index; and only when no naming
rule fires does the structural `(httpMethod, hasPathParameter)` fallback of
the spec decide.  Explicit naming always beats the fallback, so
`updateWidget` with method GET on `/widgets/{id}` is update (Replace).
(The claim's "any position" reading of rule 6 is corrected to an anchored
prefix match.) -/
theorem C2_classifier_priority (oid m route : Str) :
    identifyCrudType none m route = Crud.custom
  ∧ identifyCrudType (some ([] : Str)) m route = Crud.custom
  ∧ (oid ≠ [] → startsWithAnyCI createAlternatives oid = true →
      identifyCrudType (some oid) m route = Crud.store)
  ∧ (oid ≠ [] → startsWithAnyCI createAlternatives oid = false →
      startsWithAnyCI updateAlternatives oid = true →
      identifyCrudType (some oid) m route = Crud.update)
  ∧ (oid ≠ [] → startsWithAnyCI createAlternatives oid = false →
      startsWithAnyCI updateAlternatives oid = false →
      startsWithAnyCI destroyAlternatives oid = true →
      identifyCrudType (some oid) m route = Crud.destroy)
  ∧ (oid ≠ [] → startsWithAnyCI createAlternatives oid = false →
      startsWithAnyCI updateAlternatives oid = false →
      startsWithAnyCI destroyAlternatives oid = false →
      matchesRetrieveById oid = true →
      identifyCrudType (some oid) m route = Crud.show)
  ∧ (oid ≠ [] → startsWithAnyCI createAlternatives oid = false →
      startsWithAnyCI updateAlternatives oid = false →
      startsWithAnyCI destroyAlternatives oid = false →
      matchesRetrieveById oid = false →
      startsWithAnyCI indexAlternatives oid = true →
      identifyCrudType (some oid) m route = Crud.index)
  ∧ (oid ≠ [] → startsWithAnyCI createAlternatives oid = false →
      startsWithAnyCI updateAlternatives oid = false →
      startsWithAnyCI destroyAlternatives oid = false →
      matchesRetrieveById oid = false →
      startsWithAnyCI indexAlternatives oid = false →
      identifyCrudType (some oid) m route = specStructuralFallback m route)
  ∧ identifyCrudType (some (str "updateWidget")) (str "GET") (str "/widgets/{id}") = Crud.update := by
  refine ⟨rfl, by simp [identifyCrudType], ?_, ?_, ?_, ?_, ?_, ?_, by decide⟩
  · intro h0 h1
    simp [identifyCrudType, h0, h1]
  · intro h0 h1 h2
    simp [identifyCrudType, h0, h1, h2]
  · intro h0 h1 h2 h3
    simp [identifyCrudType, h0, h1, h2, h3]
  · intro h0 h1 h2 h3 h4
    simp [identifyCrudType, h0, h1, h2, h3, h4]
  · intro h0 h1 h2 h3 h4 h5
    simp [identifyCrudType, h0, h1, h2, h3, h4, h5]
  · intro h0 h1 h2 h3 h4 h5
    simp [identifyCrudType, specStructuralFallback, h0, h1, h2, h3, h4, h5]

/-- C2 witness: the rules applied at concrete operation ids. -/
theorem C2_classifier_priority_witness :
    identifyCrudType (some (str "createWidget")) (str "delete") (str "/w/{id}") = Crud.store
  ∧ identifyCrudType (some (str "updateWidget")) (str "get") (str "/w/{id}") = Crud.update
  ∧ identifyCrudType (some (str "removeWidget")) (str "get") (str "/w") = Crud.destroy
  ∧ identifyCrudType (some (str "getWidgetById")) (str "post") (str "/w") = Crud.show
  ∧ identifyCrudType (some (str "searchWidgets")) (str "delete") (str "/w") = Crud.index
  ∧ identifyCrudType (some (str "ping")) (str "post") (str "/w") = Crud.store := by
  refine ⟨?_, ?_, ?_, ?_, ?_, ?_⟩
  · exact (C2_classifier_priority (str "createWidget") (str "delete") (str "/w/{id}")).2.2.1
      (by decide) (by decide)
  · exact (C2_classifier_priority (str "updateWidget") (str "get") (str "/w/{id}")).2.2.2.1
      (by decide) (by decide) (by decide)
  · exact (C2_classifier_priority (str "removeWidget") (str "get") (str "/w")).2.2.2.2.1
      (by decide) (by decide) (by decide) (by decide)
  · exact (C2_classifier_priority (str "getWidgetById") (str "post") (str "/w")).2.2.2.2.2.1
      (by decide) (by decide) (by decide) (by decide) (by decide)
  · exact (C2_classifier_priority (str "searchWidgets") (str "delete") (str "/w")).2.2.2.2.2.2.1
      (by decide) (by decide) (by decide) (by decide) (by decide) (by decide)
  · have h := (C2_classifier_priority (str "ping") (str "post") (str "/w")).2.2.2.2.2.2.2.1
      (by decide) (by decide) (by decide) (by decide) (by decide) (by decide)
    exact h.trans (by decide)

/-- C2 counterexample: the claim reads rule 6 as matching
`list|get|find|index|search` at any position, which would classify
`fetchList` (PUT `/widgets`) as List; the source's regex is anchored, so
the fallback fires instead and yields update (Replace). -/
theorem C2_counterexample :
    includesStr (str "list") (toLowerStr (str "fetchList")) = true
  ∧ identifyCrudType (some (str "fetchList")) (str "put") (str "/widgets") = Crud.update
  ∧ Crud.update ≠ Crud.index := by
  exact ⟨by decide, by decide, by decide⟩

/-- C9: the two Type Mapper tables, exactly as claimed: the document
mapping sends string↦String, integer↦Number, number↦Number,
boolean↦Boolean, array↦ArrayOfMixed (`[Schema.Types.Mixed]`),
object↦Mixed (`Schema.Types.Mixed`), defaulting to String on anything
else; the relational mapping sends string+date-time↦DateTime,
string↦String, integer↦Int, number↦Float, boolean↦Boolean, defaulting to
Json.  Both are Lean functions, hence pure and total: the same input
always yields the same output. -/
theorem C9_type_mapper_tables :
    openApiTypeToMongooseType (some (str "string")) = str "String"
  ∧ openApiTypeToMongooseType (some (str "integer")) = str "Number"
  ∧ openApiTypeToMongooseType (some (str "number")) = str "Number"
  ∧ openApiTypeToMongooseType (some (str "boolean")) = str "Boolean"
  ∧ openApiTypeToMongooseType (some (str "array")) = str "[Schema.Types.Mixed]"
  ∧ openApiTypeToMongooseType (some (str "object")) = str "Schema.Types.Mixed"
  ∧ (∀ t : Option Str,
      t ≠ some (str "string") → t ≠ some (str "integer") → t ≠ some (str "number") →
      t ≠ some (str "boolean") → t ≠ some (str "array") → t ≠ some (str "object") →
      openApiTypeToMongooseType t = str "String")
  ∧ (∀ p : PropSchema, p.type = some (str "string") → p.format = some (str "date-time") →
      openApiTypeToPrismaType p = str "DateTime")
  ∧ (∀ p : PropSchema, p.type = some (str "string") → p.format ≠ some (str "date-time") →
      openApiTypeToPrismaType p = str "String")
  ∧ (∀ p : PropSchema, p.type = some (str "integer") →
      openApiTypeToPrismaType p = str "Int")
  ∧ (∀ p : PropSchema, p.type = some (str "number") →
      openApiTypeToPrismaType p = str "Float")
  ∧ (∀ p : PropSchema, p.type = some (str "boolean") →
      openApiTypeToPrismaType p = str "Boolean")
  ∧ (∀ p : PropSchema,
      p.type ≠ some (str "string") → p.type ≠ some (str "integer") →
      p.type ≠ some (str "number") → p.type ≠ some (str "boolean") →
      openApiTypeToPrismaType p = str "Json") := by
  refine ⟨by decide, by decide, by decide, by decide, by decide, by decide, ?_, ?_, ?_, ?_, ?_, ?_, ?_⟩
  · intro t h1 h2 h3 h4 h5 h6
    simp [openApiTypeToMongooseType, h1, h2, h3, h4, h5, h6]
  · intro p h1 h2
    simp [openApiTypeToPrismaType, h1, h2]
  · intro p h1 h2
    simp [openApiTypeToPrismaType, h1, h2]
  · intro p h1
    simp [openApiTypeToPrismaType, h1,
      show str "integer" ≠ str "string" from by decide]
  · intro p h1
    simp [openApiTypeToPrismaType, h1,
      show str "number" ≠ str "string" from by decide,
      show str "number" ≠ str "integer" from by decide]
  · intro p h1
    simp [openApiTypeToPrismaType, h1,
      show str "boolean" ≠ str "string" from by decide,
      show str "boolean" ≠ str "integer" from by decide,
      show str "boolean" ≠ str "number" from by decide]
  · intro p h1 h2 h3 h4
    simp [openApiTypeToPrismaType, h1, h2, h3, h4]

/-- C9 witness: the default rows at concrete unknown types. -/
theorem C9_type_mapper_tables_witness :
    openApiTypeToMongooseType (some (str "funky")) = str "String"
  ∧ openApiTypeToMongooseType none = str "String"
  ∧ openApiTypeToPrismaType ⟨some (str "string"), some (str "date-time")⟩ = str "DateTime"
  ∧ openApiTypeToPrismaType ⟨some (str "string"), none⟩ = str "String"
  ∧ openApiTypeToPrismaType ⟨some (str "array"), none⟩ = str "Json" := by
  refine ⟨?_, ?_, ?_, ?_, ?_⟩
  · exact C9_type_mapper_tables.2.2.2.2.2.2.1 (some (str "funky"))
      (by decide) (by decide) (by decide) (by decide) (by decide) (by decide)
  · exact C9_type_mapper_tables.2.2.2.2.2.2.1 none
      (by decide) (by decide) (by decide) (by decide) (by decide) (by decide)
  · exact C9_type_mapper_tables.2.2.2.2.2.2.2.1 ⟨some (str "string"), some (str "date-time")⟩
      (by decide) (by decide)
  · exact C9_type_mapper_tables.2.2.2.2.2.2.2.2.1 ⟨some (str "string"), none⟩
      (by decide) (by decide)
  · exact C9_type_mapper_tables.2.2.2.2.2.2.2.2.2.2.2.2 ⟨some (str "array"), none⟩
      (by decide) (by decide) (by decide) (by decide)

/-- C4: when parsing/validation of the OpenAPI file fails, `initFromOpenAPI`
exits before any project file or directory is written — the trace is just
parse-then-exit, with no write step in it; moreover in every trace parsing
comes first, and a write step can only ever occur when parsing succeeded. -/
theorem C4_parse_failure_atomic (pr : Option SpecDoc) (d : Bool) :
    (pr = none →
      initFromOpenAPI pr d = [InitStep.parseSpec, InitStep.exitFailure]
      ∧ ∀ s ∈ initFromOpenAPI pr d, writesFiles s = false)
  ∧ (initFromOpenAPI pr d).head? = some InitStep.parseSpec
  ∧ (∀ s ∈ initFromOpenAPI pr d, writesFiles s = true → pr ≠ none) := by
  cases pr with
  | none =>
    cases d <;> exact ⟨fun _ => ⟨rfl, by decide⟩, rfl, by decide⟩
  | some spec =>
    cases d <;>
      exact ⟨fun h => absurd h (by simp), rfl, fun s _ _ h => Option.noConfusion h⟩

/-- C4 witness: a failing parse at a concrete input. -/
theorem C4_parse_failure_atomic_witness :
    initFromOpenAPI none false = [InitStep.parseSpec, InitStep.exitFailure]
  ∧ ∀ s ∈ initFromOpenAPI none false, writesFiles s = false :=
  (C4_parse_failure_atomic none false).1 rfl

end CodingExpress

namespace CodingExpress

/-- C3: the Route Registrar is idempotent — registering the same resource a
second time on the output of the first registration leaves the router text
byte-identical — and when the import line is already present verbatim the
call is a no-op that reports "already registered" (so a duplicate import
or mount line is never inserted). -/
theorem C3_registrar_idempotent (r f s : Str) :
    (registerRouteContent r f (registerRouteContent r f s).1).1 =
      (registerRouteContent r f s).1
  ∧ (includesStr (routeImportLine r f) s = true →
      registerRouteContent r f s = (s, RegOutcome.alreadyRegistered)) :=
  ⟨registerRouteContent_idem r f s, registerRouteContent_already r f s⟩

/-- C3 witness: idempotence at a concrete router source, and the no-op on a
source that already holds the import line verbatim. -/
theorem C3_registrar_idempotent_witness :
    (registerRouteContent (str "product") (str "productRoutes.js")
      (registerRouteContent (str "product") (str "productRoutes.js")
        (str "const express = require('express');\n// [Coding express-cli-hook] - Add new routes here\nmodule.exports = router;\n")).1).1
    = (registerRouteContent (str "product") (str "productRoutes.js")
        (str "const express = require('express');\n// [Coding express-cli-hook] - Add new routes here\nmodule.exports = router;\n")).1
  ∧ registerRouteContent (str "product") (str "productRoutes.js")
      (routeImportLine (str "product") (str "productRoutes.js"))
    = (routeImportLine (str "product") (str "productRoutes.js"), RegOutcome.alreadyRegistered) :=
  ⟨(C3_registrar_idempotent (str "product") (str "productRoutes.js")
      (str "const express = require('express');\n// [Coding express-cli-hook] - Add new routes here\nmodule.exports = router;\n")).1,
   (C3_registrar_idempotent (str "product") (str "productRoutes.js")
      (routeImportLine (str "product") (str "productRoutes.js"))).2 (by decide)⟩

/-- C8 counterexample: on a router file that exists but lacks the hook
line (here, an empty file), `registerRoute` does not report the manual-edit
instructions — it writes the text back unchanged and reports success. -/
theorem C8_counterexample :
    registerRoute (str "product") (str "productRoutes.js") (some ([] : Str))
      = (some ([] : Str), RegOutcome.registered)
  ∧ (registerRoute (str "product") (str "productRoutes.js") (some ([] : Str))).2
      ≠ RegOutcome.manualInstructions := by
  exact ⟨by decide, by decide⟩

/-- C8 (amended): the manual-edit instructions are reported exactly when
the router file cannot be read; when the file exists but holds neither
the hook nor the import line, registration leaves the content unchanged
(the file is not corrupted) but reports success rather than the
manual-edit instructions. -/
theorem C8_hook_missing (r f s : Str)
    (hHook : includesStr routerHook s = false)
    (hImp : includesStr (routeImportLine r f) s = false) :
    registerRoute r f (some s) = (some s, RegOutcome.registered)
  ∧ registerRoute r f none = (none, RegOutcome.manualInstructions) := by
  constructor
  · have hinf : ¬ routerHook <:+: s := by
      intro h
      rw [(includesStr_iff_contains routerHook s).mpr h] at hHook
      simp at hHook
    have : registerRouteContent r f s =
        (replaceFirst routerHook
          (routeImportLine r f ++ str "\n" ++ routeUsageLine r ++ str "\n\n" ++ routerHook) s,
         RegOutcome.registered) := registerRouteContent_fresh r f s hImp
    simp only [registerRoute, this, replaceFirst_of_absent _ _ _ hinf]
  · rfl

/-- C8 witness: the hook-missing and file-missing branches at a concrete
router source. -/
theorem C8_hook_missing_witness :
    registerRoute (str "product") (str "productRoutes.js")
      (some (str "const express = require('express');\n"))
      = (some (str "const express = require('express');\n"), RegOutcome.registered)
  ∧ registerRoute (str "product") (str "productRoutes.js") none
      = (none, RegOutcome.manualInstructions) :=
  C8_hook_missing (str "product") (str "productRoutes.js")
    (str "const express = require('express');\n") (by decide) (by decide)

end CodingExpress

namespace CodingExpress

theorem lookupFS_append_some (fs gs : FS) (q d : Str)
    (h : lookupFS fs q = some d) : lookupFS (fs ++ gs) q = some d := by
  induction fs with
  | nil => simp [lookupFS] at h
  | cons e rest ih =>
    obtain ⟨p, c⟩ := e
    by_cases hp : p = q
    · simpa [lookupFS, hp] using h
    · rw [List.cons_append]
      simp only [lookupFS, if_neg hp] at h ⊢
      exact ih h

theorem lookupFS_append_none (fs gs : FS) (q : Str)
    (h : lookupFS fs q = none) : lookupFS (fs ++ gs) q = lookupFS gs q := by
  induction fs with
  | nil => simp
  | cons e rest ih =>
    obtain ⟨p, c⟩ := e
    by_cases hp : p = q
    · simp [lookupFS, hp] at h
    · simp only [lookupFS, hp, if_false] at h
      simp only [List.cons_append, lookupFS, hp, if_false]
      exact ih h

theorem setFS_lookup (fs : FS) (p c q : Str) :
    lookupFS (setFS fs p c) q = if p = q then some c else lookupFS fs q := by
  induction fs with
  | nil => simp [setFS, lookupFS]
  | cons e rest ih =>
    obtain ⟨k, d⟩ := e
    by_cases hk : k = p
    · subst hk
      by_cases hq : k = q <;> simp [setFS, lookupFS, hq]
    · by_cases hq : k = q
      · subst hq
        have hpk : ¬ p = k := fun h => hk h.symm
        simp [setFS, lookupFS, hk, hpk]
      · simp [setFS, lookupFS, hk, hq, ih]

theorem setFS_self (fs : FS) (p c : Str) (h : lookupFS fs p = some c) :
    setFS fs p c = fs := by
  induction fs with
  | nil => simp [lookupFS] at h
  | cons e rest ih =>
    obtain ⟨k, d⟩ := e
    by_cases hk : k = p
    · subst hk
      simp only [lookupFS, if_pos rfl] at h
      obtain rfl : d = c := Option.some.inj h
      simp [setFS]
    · simp only [lookupFS, hk, if_false] at h
      simp [setFS, hk, ih h]

/-- A path already stored in the file system. -/
def presentFS (fs : FS) (p : Str) : Prop := (lookupFS fs p).isSome = true

theorem presentFS_createFile_self (fs : FS) (p c : Str) :
    presentFS (createFile fs p c).1 p := by
  unfold presentFS createFile
  cases h : lookupFS fs p with
  | some d => simp [h]
  | none =>
    have := lookupFS_append_none fs [(p, c)] p h
    simp [this, lookupFS]

theorem presentFS_createFile_mono (fs : FS) (p c q : Str) (h : presentFS fs q) :
    presentFS (createFile fs p c).1 q := by
  unfold presentFS at h ⊢
  unfold createFile
  cases hp : lookupFS fs p with
  | some d => simpa using h
  | none =>
    cases hq : lookupFS fs q with
    | none => rw [hq] at h; simp at h
    | some d => simp [lookupFS_append_some fs [(p, c)] q d hq]

theorem createFile_of_present (fs : FS) (p c : Str) (h : presentFS fs p) :
    createFile fs p c = (fs, FsEvent.skipped p) := by
  unfold presentFS at h
  unfold createFile
  cases hp : lookupFS fs p with
  | some d => rfl
  | none => rw [hp] at h; simp at h

theorem presentFS_setFS_mono (fs : FS) (p c q : Str) (h : presentFS fs q) :
    presentFS (setFS fs p c) q := by
  unfold presentFS at h ⊢
  rw [setFS_lookup]
  by_cases hpq : p = q <;> simp [hpq, h]

theorem presentFS_registerRouteFS_mono (r f : Str) (fs : FS) (q : Str)
    (h : presentFS fs q) : presentFS (registerRouteFS r f fs).1 q := by
  unfold registerRouteFS
  cases hl : lookupFS fs (str "app/routes/index.js") with
  | none => exact h
  | some content =>
    by_cases hin : includesStr (routeImportLine r f) content = true
    · simp [hin]; exact h
    · simp [hin]
      exact presentFS_setFS_mono fs _ _ q h

theorem registerRouteFS_none (r f : Str) (fs : FS)
    (h : lookupFS fs (str "app/routes/index.js") = none) :
    registerRouteFS r f fs = (fs, FsEvent.manualInstructions r) := by
  simp [registerRouteFS, h]

theorem registerRouteFS_already (r f : Str) (fs : FS) (content : Str)
    (h : lookupFS fs (str "app/routes/index.js") = some content)
    (hin : includesStr (routeImportLine r f) content = true) :
    registerRouteFS r f fs = (fs, FsEvent.alreadyRegistered r) := by
  simp [registerRouteFS, h, hin]

theorem registerRouteFS_fresh (r f : Str) (fs : FS) (content : Str)
    (h : lookupFS fs (str "app/routes/index.js") = some content)
    (hin : includesStr (routeImportLine r f) content = false) :
    registerRouteFS r f fs =
      (setFS fs (str "app/routes/index.js")
        (replaceFirst routerHook
          (routeImportLine r f ++ str "\n" ++ routeUsageLine r ++ str "\n\n" ++ routerHook)
          content),
       FsEvent.registered r) := by
  simp [registerRouteFS, h, hin]

theorem registerRouteFS_idem (r f : Str) (fs : FS) :
    (registerRouteFS r f (registerRouteFS r f fs).1).1 = (registerRouteFS r f fs).1 := by
  cases h : lookupFS fs (str "app/routes/index.js") with
  | none =>
    rw [registerRouteFS_none r f fs h]
    rw [registerRouteFS_none r f fs h]
  | some content =>
    by_cases hin : includesStr (routeImportLine r f) content = true
    · rw [registerRouteFS_already r f fs content h hin]
      rw [registerRouteFS_already r f fs content h hin]
    · have hin' : includesStr (routeImportLine r f) content = false := by
        simpa using hin
      have h1 := registerRouteFS_fresh r f fs content h hin'
      by_cases hhook : routerHook <:+: content
      · have himp : routeImportLine r f <:+:
            replaceFirst routerHook
              (routeImportLine r f ++ str "\n" ++ routeUsageLine r ++ str "\n\n" ++ routerHook)
              content := by
          have h2 := importLine_infix_after_register r f content hin' hhook
          rw [registerRouteContent_fresh r f content hin'] at h2
          exact h2
        generalize hge : replaceFirst routerHook
            (routeImportLine r f ++ str "\n" ++ routeUsageLine r ++ str "\n\n" ++ routerHook)
            content = c1 at h1 himp
        rw [h1]
        have hl : lookupFS (setFS fs (str "app/routes/index.js") c1)
            (str "app/routes/index.js") = some c1 := by
          rw [setFS_lookup]; simp
        rw [registerRouteFS_already r f _ c1 hl ((includesStr_iff_contains _ _).mpr himp)]
      · have hc : replaceFirst routerHook
            (routeImportLine r f ++ str "\n" ++ routeUsageLine r ++ str "\n\n" ++ routerHook)
            content = content :=
          replaceFirst_of_absent _ _ _ hhook
        rw [hc, setFS_self fs _ content h] at h1
        rw [h1]
        rw [registerRouteFS_fresh r f fs content h hin', hc, setFS_self fs _ content h]

end CodingExpress

namespace CodingExpress

/-- The first run of `createResource` (mongoose), unfolded to its chain of
`createFile` calls and the final router registration. -/
theorem createResource_fst (name : Str) (fs : FS) :
    (createResource name Orm.mongoose fs).1 =
      (registerRouteFS (toLowerStr name) (toLowerStr name ++ str "Routes.js")
        (createFile
          (createFile
            (createFile
              (createFile fs (modelPathOf name)
                (getMongooseModelTemplate name (str "default") defaultMongooseFields)).1
              (controllerPathOf name)
              (getControllerTemplate (replaceFirst (str "Controller") [] name) Orm.mongoose)).1
            (validatorPathOf (replaceFirst (str "Controller") [] name))
            (getValidatorTemplate (replaceFirst (str "Controller") [] name))).1
          (routesPathOf (toLowerStr name ++ str "Routes.js"))
          (getRouteTemplate (toLowerStr name) (upperFirst (toLowerStr name) ++ str "Controller"))).1).1 :=
  rfl

/-- Re-running `createResource` (mongoose) skips all four target files and
leaves the file system untouched. -/
theorem createResource_mongoose_rerun (name : Str) (fs : FS) :
    createResource name Orm.mongoose (createResource name Orm.mongoose fs).1 =
      ((createResource name Orm.mongoose fs).1,
       [FsEvent.skipped (modelPathOf name),
        FsEvent.skipped (controllerPathOf name),
        FsEvent.skipped (validatorPathOf (replaceFirst (str "Controller") [] name)),
        FsEvent.skipped (routesPathOf (toLowerStr name ++ str "Routes.js")),
        (registerRouteFS (toLowerStr name) (toLowerStr name ++ str "Routes.js")
          (createResource name Orm.mongoose fs).1).2]) := by
  have hfst := createResource_fst name fs
  have q1 : presentFS (createResource name Orm.mongoose fs).1 (modelPathOf name) := by
    rw [hfst]
    exact presentFS_registerRouteFS_mono _ _ _ _
      (presentFS_createFile_mono _ _ _ _
        (presentFS_createFile_mono _ _ _ _
          (presentFS_createFile_mono _ _ _ _
            (presentFS_createFile_self _ _ _))))
  have q2 : presentFS (createResource name Orm.mongoose fs).1 (controllerPathOf name) := by
    rw [hfst]
    exact presentFS_registerRouteFS_mono _ _ _ _
      (presentFS_createFile_mono _ _ _ _
        (presentFS_createFile_mono _ _ _ _
          (presentFS_createFile_self _ _ _)))
  have q3 : presentFS (createResource name Orm.mongoose fs).1
      (validatorPathOf (replaceFirst (str "Controller") [] name)) := by
    rw [hfst]
    exact presentFS_registerRouteFS_mono _ _ _ _
      (presentFS_createFile_mono _ _ _ _
        (presentFS_createFile_self _ _ _))
  have q4 : presentFS (createResource name Orm.mongoose fs).1
      (routesPathOf (toLowerStr name ++ str "Routes.js")) := by
    rw [hfst]
    exact presentFS_registerRouteFS_mono _ _ _ _
      (presentFS_createFile_self _ _ _)
  have e5 : (registerRouteFS (toLowerStr name) (toLowerStr name ++ str "Routes.js")
      (createResource name Orm.mongoose fs).1).1 = (createResource name Orm.mongoose fs).1 := by
    rw [hfst]
    exact registerRouteFS_idem _ _ _
  generalize hF : (createResource name Orm.mongoose fs).1 = F at q1 q2 q3 q4 e5 ⊢
  simp only [createResource, createModel, createController, createRouteFile, Option.getD]
  rw [createFile_of_present _ _ _ q1]
  dsimp only
  rw [createFile_of_present _ _ _ q2]
  dsimp only
  rw [createFile_of_present _ _ _ q3]
  dsimp only
  rw [createFile_of_present _ _ _ q4]
  dsimp only
  rw [e5]
  rfl

/-- C5 (amended): re-running `make:resource` under mongoose leaves the
project byte-for-byte unchanged, with every `createFile` target reported
"skipped, already exists" (the model, controller, validator and route
files); but under Prisma, `createModel` appends the model block to
`prisma/schema.prisma` unconditionally on every run, so that file is
changed again by a second run instead of being skipped. -/
theorem C5_make_rerun (name : Str) (fs : FS) :
    ((createResource name Orm.mongoose (createResource name Orm.mongoose fs).1).1
        = (createResource name Orm.mongoose fs).1)
  ∧ (createResource name Orm.mongoose (createResource name Orm.mongoose fs).1).2
      = [FsEvent.skipped (modelPathOf name),
         FsEvent.skipped (controllerPathOf name),
         FsEvent.skipped (validatorPathOf (replaceFirst (str "Controller") [] name)),
         FsEvent.skipped (routesPathOf (toLowerStr name ++ str "Routes.js")),
         (registerRouteFS (toLowerStr name) (toLowerStr name ++ str "Routes.js")
           (createResource name Orm.mongoose fs).1).2]
  ∧ (∀ content : Str, lookupFS fs (str "prisma/schema.prisma") = some content →
      (createModel name Orm.prisma none fs).1
        = setFS fs (str "prisma/schema.prisma")
            (content ++ eol ++ eol ++ getPrismaModelTemplate name)) := by
  refine ⟨?_, ?_, ?_⟩
  · rw [createResource_mongoose_rerun name fs]
  · rw [createResource_mongoose_rerun name fs]
  · intro content h
    simp [createModel, h]

/-- C5 witness: mongoose idempotence on the empty project, and the prisma
append at a seeded schema file. -/
theorem C5_make_rerun_witness :
    ((createResource (str "Product") Orm.mongoose
        (createResource (str "Product") Orm.mongoose ([] : FS)).1).1
      = (createResource (str "Product") Orm.mongoose ([] : FS)).1)
  ∧ (createModel (str "Product") Orm.prisma none prismaFs).1
      = setFS prismaFs (str "prisma/schema.prisma")
          (str "// base" ++ eol ++ eol ++ getPrismaModelTemplate (str "Product")) :=
  ⟨(C5_make_rerun (str "Product") ([] : FS)).1,
   (C5_make_rerun (str "Product") prismaFs).2.2 (str "// base") (by decide)⟩

set_option maxRecDepth 20000 in
/-- C5 counterexample: `make:model` under Prisma is not
create-if-absent — a second identical run appends the model block to
`prisma/schema.prisma` again, altering the file produced by the first
run (and reports another append, not "skipped"). -/
theorem C5_counterexample :
    (createModel (str "Product") Orm.prisma none
        ((createModel (str "Product") Orm.prisma none prismaFs).1)).1
      ≠ (createModel (str "Product") Orm.prisma none prismaFs).1
  ∧ (createModel (str "Product") Orm.prisma none
        ((createModel (str "Product") Orm.prisma none prismaFs).1)).2
      = [FsEvent.appendedPrismaModel (str "Product")] := by
  exact ⟨by decide, by decide⟩

end CodingExpress

namespace CodingExpress

theorem infix_of_eq_append (x pre post whole : Str) (h : whole = pre ++ x ++ post) :
    x <:+: whole :=
  ⟨pre, post, h.symm⟩

theorem infix_extend_left (l l₁ l₂ : Str) (h : l <:+: l₂) : l <:+: l₁ ++ l₂ := by
  obtain ⟨s, t, hst⟩ := h
  exact ⟨l₁ ++ s, t, by rw [← hst]; simp⟩

theorem infix_concatStr {α : Type} (f : α → Str) (l : List α) (x : α) (hx : x ∈ l) :
    f x <:+: concatStr (l.map f) := by
  induction l with
  | nil => cases hx
  | cons a rest ih =>
    have hcat : concatStr ((a :: rest).map f) = f a ++ concatStr (rest.map f) := rfl
    rw [hcat]
    cases hx with
    | head => exact ⟨[], concatStr (rest.map f), by simp⟩
    | tail _ h => exact infix_extend_left _ _ _ (ih h)

theorem generateRoutes_events (spec : SpecDoc) (orm : Orm)
    (hp : spec.paths.isEmpty = false) :
    generateRoutesAndControllersFromSpec spec orm
      = (groupResources spec.paths).flatMap (emitResource spec.schemas orm) := by
  simp [generateRoutesAndControllersFromSpec, hp]

theorem emitResource_mem_events (spec : SpecDoc) (orm : Orm)
    (entry : Str × ResourcePaths) (e : GenEvent)
    (hp : spec.paths.isEmpty = false)
    (hentry : entry ∈ groupResources spec.paths)
    (he : e ∈ emitResource spec.schemas orm entry) :
    e ∈ generateRoutesAndControllersFromSpec spec orm := by
  rw [generateRoutes_events spec orm hp]
  exact List.mem_flatMap.mpr ⟨entry, hentry, he⟩

theorem emitResource_controller_mem (schemas : List (Str × SchemaObj)) (orm : Orm)
    (entry : Str × ResourcePaths) :
    GenEvent.calledCreateFile
        (str "app/controllers/" ++ (singularNameOf entry.1 ++ str "Controller") ++ str ".js")
        (controllerFileContentOf (singularNameOf entry.1 ++ str "Controller")
          (singularNameOf entry.1) orm
          (concatStr ((opsOfResource entry.2).map
            (controllerMethodTextOf (singularNameOf entry.1) orm))))
      ∈ emitResource schemas orm entry := by
  simp [emitResource]

theorem emitResource_route_mem (schemas : List (Str × SchemaObj)) (orm : Orm)
    (entry : Str × ResourcePaths) :
    GenEvent.calledCreateFile
        (routesPathOf (lowerFirst (singularNameOf entry.1) ++ str "Routes.js"))
        (routeFileContentOf (singularNameOf entry.1 ++ str "Controller")
          (lowerFirst (singularNameOf entry.1) ++ str "Validator")
          (singularNameOf entry.1)
          (lookupA schemas (singularNameOf entry.1)).isSome
          (concatStr ((opsOfResource entry.2).map
            (routeEntryTextOf (lookupA schemas (singularNameOf entry.1)).isSome
              (singularNameOf entry.1 ++ str "Controller")
              (lowerFirst (singularNameOf entry.1) ++ str "Validator")))))
      ∈ emitResource schemas orm entry := by
  simp [emitResource]

theorem emitResource_register_mem (schemas : List (Str × SchemaObj)) (orm : Orm)
    (entry : Str × ResourcePaths) :
    GenEvent.registeredRoute (lowerFirst (singularNameOf entry.1))
        (lowerFirst (singularNameOf entry.1) ++ str "Routes.js")
      ∈ emitResource schemas orm entry := by
  simp [emitResource]

end CodingExpress

namespace CodingExpress

theorem routeEntry_piece_isPrefix (sp : Bool) (cn vn : Str)
    (t : Str × Str × Operation) (oid : Str)
    (hoid : truthyStr t.2.2.operationId = some oid) :
    (str "router." ++ t.2.1 ++ str "('" ++ toExpressRoute t.1 ++ str "', ") <+:
      routeEntryTextOf sp cn vn t := by
  simp only [routeEntryTextOf, hoid]
  refine ⟨(if sp ∧ (identifyCrudType (some oid) t.2.1 t.1 = Crud.store
            ∨ identifyCrudType (some oid) t.2.1 t.1 = Crud.update) then
          vn ++ str "." ++ crudString (identifyCrudType (some oid) t.2.1 t.1) ++ str ", "
        else [])
      ++ (cn ++ (str "." ++ (oid ++ str ");\n"))), ?_⟩
  simp [List.append_assoc]

theorem entries_infix_routeFile (cn vn sn : Str) (sp : Bool) (entries : Str) :
    entries <:+: routeFileContentOf cn vn sn sp entries := by
  refine infix_of_eq_append _
    (str "const express = require('express');\nconst router = express.Router();\nconst "
      ++ cn ++ str " = require('../controllers/" ++ cn ++ str "');\n"
      ++ (if sp then
            str "const " ++ vn ++ str " = require('../validators/" ++ sn ++ str "Validator');"
          else str "// TODO: Create and import validator for this resource")
      ++ str "\n\n")
    (str "\nmodule.exports = router;") _ ?_
  simp [routeFileContentOf, List.append_assoc]

theorem todo_infix_routeFile (cn vn sn : Str) (entries : Str) :
    (str "// TODO: Create and import validator for this resource") <:+:
      routeFileContentOf cn vn sn false entries := by
  refine infix_of_eq_append _
    (str "const express = require('express');\nconst router = express.Router();\nconst "
      ++ cn ++ str " = require('../controllers/" ++ cn ++ str "');\n")
    (str "\n\n" ++ entries ++ str "\nmodule.exports = router;") _ ?_
  simp [routeFileContentOf, List.append_assoc]

theorem validatorImport_infix_routeFile (cn vn sn : Str) (entries : Str) :
    (str "const " ++ vn ++ str " = require('../validators/" ++ sn ++ str "Validator');") <:+:
      routeFileContentOf cn vn sn true entries := by
  refine infix_of_eq_append _
    (str "const express = require('express');\nconst router = express.Router();\nconst "
      ++ cn ++ str " = require('../controllers/" ++ cn ++ str "');\n")
    (str "\n\n" ++ entries ++ str "\nmodule.exports = router;") _ ?_
  simp [routeFileContentOf, List.append_assoc]

theorem methods_infix_controller (cn sn : Str) (orm : Orm) (methods : Str) :
    methods <:+: controllerFileContentOf cn sn orm methods := by
  cases orm with
  | mongoose =>
    refine infix_of_eq_append _
      (str "const getModel = require('../models/" ++ sn ++ str "');"
        ++ str "\n\nclass " ++ cn ++ str " \x7b")
      (str "\n\x7d\n\nmodule.exports = new " ++ cn ++ str "();") _ ?_
    simp [controllerFileContentOf, List.append_assoc]
  | prisma =>
    refine infix_of_eq_append _
      (str "const \x7b prisma \x7d = require('../../config/database');"
        ++ str "\n\nclass " ++ cn ++ str " \x7b")
      (str "\n\x7d\n\nmodule.exports = new " ++ cn ++ str "();") _ ?_
    simp [controllerFileContentOf, List.append_assoc]

theorem methodText_piece_contained (sn : Str) (orm : Orm)
    (t : Str × Str × Operation) (oid : Str)
    (hoid : truthyStr t.2.2.operationId = some oid) :
    (str "async " ++ oid ++ str "(req, res, next) \x7b\n    "
      ++ getControllerMethodBody (identifyCrudType (some oid) t.2.1 t.1) sn orm) <:+:
      controllerMethodTextOf sn orm t := by
  simp only [controllerMethodTextOf, hoid]
  refine infix_of_eq_append _
    (str "\n  /**\n   * " ++ jsOrStr t.2.2.summary oid ++ str "\n   */\n  ")
    (str "\n  \x7d\n") _ ?_
  have hsplit : str "\n   */\n  async " = str "\n   */\n  " ++ str "async " := by decide
  simp [hsplit, List.append_assoc]

end CodingExpress

namespace CodingExpress

theorem emitResource_no_schema (schemas : List (Str × SchemaObj)) (orm : Orm)
    (entry : Str × ResourcePaths)
    (h : lookupA schemas (singularNameOf entry.1) = none) :
    emitResource schemas orm entry =
      [GenEvent.calledCreateFile
         (str "app/controllers/" ++ (singularNameOf entry.1 ++ str "Controller") ++ str ".js")
         (controllerFileContentOf (singularNameOf entry.1 ++ str "Controller")
           (singularNameOf entry.1) orm
           (concatStr ((opsOfResource entry.2).map
             (controllerMethodTextOf (singularNameOf entry.1) orm)))),
       GenEvent.calledCreateFile
         (routesPathOf (lowerFirst (singularNameOf entry.1) ++ str "Routes.js"))
         (routeFileContentOf (singularNameOf entry.1 ++ str "Controller")
           (lowerFirst (singularNameOf entry.1) ++ str "Validator")
           (singularNameOf entry.1) false
           (concatStr ((opsOfResource entry.2).map
             (routeEntryTextOf false (singularNameOf entry.1 ++ str "Controller")
               (lowerFirst (singularNameOf entry.1) ++ str "Validator"))))),
       GenEvent.registeredRoute (lowerFirst (singularNameOf entry.1))
         (lowerFirst (singularNameOf entry.1) ++ str "Routes.js")] := by
  simp [emitResource, h]

theorem emitResource_with_schema (schemas : List (Str × SchemaObj)) (orm : Orm)
    (entry : Str × ResourcePaths) (sch : SchemaObj) (props : List (Str × PropSchema))
    (h : lookupA schemas (singularNameOf entry.1) = some sch)
    (hps : sch.properties = some props) :
    emitResource schemas orm entry =
      [GenEvent.calledCreateFile (validatorPathOf (singularNameOf entry.1))
         (validatorFileContentOf (singularNameOf entry.1) sch props),
       GenEvent.calledCreateFile
         (str "app/controllers/" ++ (singularNameOf entry.1 ++ str "Controller") ++ str ".js")
         (controllerFileContentOf (singularNameOf entry.1 ++ str "Controller")
           (singularNameOf entry.1) orm
           (concatStr ((opsOfResource entry.2).map
             (controllerMethodTextOf (singularNameOf entry.1) orm)))),
       GenEvent.calledCreateFile
         (routesPathOf (lowerFirst (singularNameOf entry.1) ++ str "Routes.js"))
         (routeFileContentOf (singularNameOf entry.1 ++ str "Controller")
           (lowerFirst (singularNameOf entry.1) ++ str "Validator")
           (singularNameOf entry.1) true
           (concatStr ((opsOfResource entry.2).map
             (routeEntryTextOf true (singularNameOf entry.1 ++ str "Controller")
               (lowerFirst (singularNameOf entry.1) ++ str "Validator"))))),
       GenEvent.registeredRoute (lowerFirst (singularNameOf entry.1))
         (lowerFirst (singularNameOf entry.1) ++ str "Routes.js")] := by
  simp [emitResource, h, generateValidatorContent, hps]

theorem lookupA_none_ne {α : Type} (l : List (Str × α)) (q : Str)
    (h : lookupA l q = none) : ∀ pr ∈ l, pr.1 ≠ q := by
  induction l with
  | nil => intro pr hpr; cases hpr
  | cons e rest ih =>
    intro pr hpr
    obtain ⟨k, v⟩ := e
    by_cases hk : k = q
    · simp [lookupA, hk] at h
    · cases hpr with
      | head => simpa using hk
      | tail _ hm =>
        simp only [lookupA, hk, if_false] at h
        exact ih h pr hm

theorem modelPathOf_inj (a b : Str) (h : modelPathOf a = modelPathOf b) : a = b := by
  unfold modelPathOf at h
  exact List.append_cancel_left (List.append_cancel_right h)

theorem generateModels_create_names (spec : SpecDoc) (orm : Orm) (p c : Str)
    (h : GenEvent.calledCreateFile p c ∈ generateModelsFromSpec spec orm) :
    ∃ pr ∈ spec.schemas, p = modelPathOf pr.1 := by
  unfold generateModelsFromSpec at h
  by_cases he : spec.schemas.isEmpty = true
  · rw [if_pos he] at h
    simp at h
  · rw [if_neg he] at h
    obtain ⟨pr, hpr, hev⟩ := List.mem_flatMap.mp h
    refine ⟨pr, hpr, ?_⟩
    dsimp only at hev
    cases hps : pr.2.properties with
    | none => rw [hps] at hev; simp at hev
    | some props =>
      rw [hps] at hev
      dsimp only at hev
      by_cases hty : pr.2.type ≠ some (str "object")
      · simp [hty] at hev
      · rw [if_neg hty] at hev
        cases orm with
        | mongoose =>
          simp only [List.mem_singleton, GenEvent.calledCreateFile.injEq] at hev
          exact hev.1
        | prisma => simp at hev

theorem no_model_for_schemaless (spec : SpecDoc) (orm : Orm) (n c : Str)
    (hn : lookupA spec.schemas n = none) :
    GenEvent.calledCreateFile (modelPathOf n) c ∉ generateModelsFromSpec spec orm := by
  intro h
  obtain ⟨pr, hpr, hp⟩ := generateModels_create_names spec orm _ c h
  exact lookupA_none_ne spec.schemas n hn pr hpr (modelPathOf_inj _ _ hp.symm)

theorem toExpressRoute_append (a b : Str) :
    toExpressRoute (a ++ b) = toExpressRoute a ++ toExpressRoute b := by
  simp [toExpressRoute, replaceAllChar, removeAllChar]

theorem toExpressRoute_single (c : Char) (h1 : c ≠ '{') (h2 : c ≠ '}') :
    toExpressRoute [c] = [c] := by
  simp [toExpressRoute, replaceAllChar, removeAllChar, h1, h2]

end CodingExpress

namespace CodingExpress

/-- C10: every route entry the OpenAPI-init flow writes into a resource's
route file uses the complete original route template with each brace
parameter rewritten to colon form (every opening brace becomes a colon and
every closing brace is removed, all other characters kept in place — so
the leading resource segment is not stripped), and the route module itself
is registered mounted at '/' followed by the singular lowercase resource
name. -/
theorem C10_route_paths_and_mount (spec : SpecDoc) (orm : Orm)
    (entry : Str × ResourcePaths) (t : Str × Str × Operation) (oid : Str)
    (hp : spec.paths.isEmpty = false)
    (hentry : entry ∈ groupResources spec.paths)
    (ht : t ∈ opsOfResource entry.2)
    (hoid : truthyStr t.2.2.operationId = some oid) :
    GenEvent.calledCreateFile
        (routesPathOf (lowerFirst (singularNameOf entry.1) ++ str "Routes.js"))
        (routeFileContentOf (singularNameOf entry.1 ++ str "Controller")
          (lowerFirst (singularNameOf entry.1) ++ str "Validator")
          (singularNameOf entry.1)
          (lookupA spec.schemas (singularNameOf entry.1)).isSome
          (concatStr ((opsOfResource entry.2).map
            (routeEntryTextOf (lookupA spec.schemas (singularNameOf entry.1)).isSome
              (singularNameOf entry.1 ++ str "Controller")
              (lowerFirst (singularNameOf entry.1) ++ str "Validator")))))
      ∈ generateRoutesAndControllersFromSpec spec orm
  ∧ (str "router." ++ t.2.1 ++ str "('" ++ toExpressRoute t.1 ++ str "', ") <:+:
      routeFileContentOf (singularNameOf entry.1 ++ str "Controller")
        (lowerFirst (singularNameOf entry.1) ++ str "Validator")
        (singularNameOf entry.1)
        (lookupA spec.schemas (singularNameOf entry.1)).isSome
        (concatStr ((opsOfResource entry.2).map
          (routeEntryTextOf (lookupA spec.schemas (singularNameOf entry.1)).isSome
            (singularNameOf entry.1 ++ str "Controller")
            (lowerFirst (singularNameOf entry.1) ++ str "Validator"))))
  ∧ GenEvent.registeredRoute (lowerFirst (singularNameOf entry.1))
        (lowerFirst (singularNameOf entry.1) ++ str "Routes.js")
      ∈ generateRoutesAndControllersFromSpec spec orm
  ∧ routeUsageLine (lowerFirst (singularNameOf entry.1))
      = str "router.use('/" ++ lowerFirst (singularNameOf entry.1) ++ str "', "
        ++ lowerFirst (singularNameOf entry.1) ++ str "Routes);"
  ∧ (∀ a b : Str, toExpressRoute (a ++ b) = toExpressRoute a ++ toExpressRoute b)
  ∧ toExpressRoute ['{'] = [':']
  ∧ toExpressRoute ['}'] = ([] : Str)
  ∧ (∀ c : Char, c ≠ '{' → c ≠ '}' → toExpressRoute [c] = [c]) := by
  refine ⟨?_, ?_, ?_, ?_, toExpressRoute_append, by decide, by decide, toExpressRoute_single⟩
  · exact emitResource_mem_events spec orm entry _ hp hentry
      (emitResource_route_mem spec.schemas orm entry)
  · exact ((routeEntry_piece_isPrefix _ _ _ t oid hoid).isInfix.trans
      ((infix_concatStr _ (opsOfResource entry.2) t ht).trans
        (entries_infix_routeFile _ _ _ _ _)))
  · exact emitResource_mem_events spec orm entry _ hp hentry
      (emitResource_register_mem spec.schemas orm entry)
  · rfl

/-- C10 witness: the `/products/{id}` entry of the end-to-end document
keeps its full path (rewritten to `/products/:id`), and the mount line for
the singular lowercase resource. -/
theorem C10_route_paths_and_mount_witness :
    routeUsageLine (lowerFirst (singularNameOf (str "Products")))
      = str "router.use('/" ++ lowerFirst (singularNameOf (str "Products")) ++ str "', "
        ++ lowerFirst (singularNameOf (str "Products")) ++ str "Routes);"
  ∧ GenEvent.registeredRoute (lowerFirst (singularNameOf (str "Products")))
        (lowerFirst (singularNameOf (str "Products")) ++ str "Routes.js")
      ∈ generateRoutesAndControllersFromSpec demoSpec Orm.mongoose
  ∧ toExpressRoute (str "/products/{id}") = str "/products/:id" := by
  have h := C10_route_paths_and_mount demoSpec Orm.mongoose productsEntry productByIdOp
    (str "getProductById") (by decide) (by decide) (by decide) (by decide)
  exact ⟨h.2.2.2.1, h.2.2.1, by decide⟩

end CodingExpress

namespace CodingExpress

/-- C7 (amended): for every operation that HAS a (truthy) operationId, the
emitted controller contains a method named after the operationId whose
body is the template selected by the operation's CrudKind, parameterized
by the singular resource name and the ORM choice; an operation whose kind
is `custom` gets the 501 "Not Implemented" stub body.  (Operations whose
operationId is missing are NOT given a Custom stub: the source skips them
entirely — see the counterexample.) -/
theorem C7_operation_emission (spec : SpecDoc) (orm : Orm)
    (entry : Str × ResourcePaths) (t : Str × Str × Operation) (oid : Str)
    (hp : spec.paths.isEmpty = false)
    (hentry : entry ∈ groupResources spec.paths)
    (ht : t ∈ opsOfResource entry.2)
    (hoid : truthyStr t.2.2.operationId = some oid) :
    GenEvent.calledCreateFile
        (str "app/controllers/" ++ (singularNameOf entry.1 ++ str "Controller") ++ str ".js")
        (controllerFileContentOf (singularNameOf entry.1 ++ str "Controller")
          (singularNameOf entry.1) orm
          (concatStr ((opsOfResource entry.2).map
            (controllerMethodTextOf (singularNameOf entry.1) orm))))
      ∈ generateRoutesAndControllersFromSpec spec orm
  ∧ (str "async " ++ oid ++ str "(req, res, next) \x7b\n    "
      ++ getControllerMethodBody (identifyCrudType (some oid) t.2.1 t.1)
           (singularNameOf entry.1) orm) <:+:
      controllerFileContentOf (singularNameOf entry.1 ++ str "Controller")
        (singularNameOf entry.1) orm
        (concatStr ((opsOfResource entry.2).map
          (controllerMethodTextOf (singularNameOf entry.1) orm)))
  ∧ getControllerMethodBody Crud.custom (singularNameOf entry.1) orm = customMethodBody
  ∧ (str "res.status(501).json(\x7b message: 'Not Implemented' \x7d);") <:+: customMethodBody := by
  refine ⟨?_, ?_, ?_, ?_⟩
  · exact emitResource_mem_events spec orm entry _ hp hentry
      (emitResource_controller_mem spec.schemas orm entry)
  · exact (methodText_piece_contained _ orm t oid hoid).trans
      ((infix_concatStr _ (opsOfResource entry.2) t ht).trans
        (methods_infix_controller _ _ orm _))
  · cases orm <;> rfl
  · exact (includesStr_iff_contains _ _).mp (by decide)

/-- C7 witness: `getProductById` is emitted with the `show` template, and
the custom stub responds 501. -/
theorem C7_operation_emission_witness :
    (str "async " ++ str "getProductById" ++ str "(req, res, next) \x7b\n    "
      ++ getControllerMethodBody
           (identifyCrudType (some (str "getProductById")) (str "get") (str "/products/{id}"))
           (singularNameOf (str "Products")) Orm.mongoose) <:+:
      controllerFileContentOf (singularNameOf (str "Products") ++ str "Controller")
        (singularNameOf (str "Products")) Orm.mongoose
        (concatStr ((opsOfResource productsEntry.2).map
          (controllerMethodTextOf (singularNameOf (str "Products")) Orm.mongoose)))
  ∧ getControllerMethodBody Crud.custom (singularNameOf (str "Products")) Orm.mongoose
      = customMethodBody := by
  have h := C7_operation_emission demoSpec Orm.mongoose productsEntry productByIdOp
    (str "getProductById") (by decide) (by decide) (by decide) (by decide)
  exact ⟨h.2.1, h.2.2.1⟩

set_option maxRecDepth 200000 in
/-- C7 counterexample: a resource group whose single operation has no
operationId.  The claim says that operation must still get a Custom-kind
controller method with a 501 stub body; the source's
`if (!operation.operationId) continue;` skips it silently instead — the
emitted controller for `/widgets` contains no method at all (no `async`,
no 501) and the route file no entry. -/
theorem C7_counterexample :
    generateRoutesAndControllersFromSpec w7Spec Orm.mongoose =
      [GenEvent.calledCreateFile (str "app/controllers/WidgetController.js") w7ControllerContent,
       GenEvent.calledCreateFile (str "app/routes/widgetRoutes.js") w7RouteContent,
       GenEvent.registeredRoute (str "widget") (str "widgetRoutes.js")]
  ∧ includesStr (str "async") w7ControllerContent = false
  ∧ includesStr (str "501") w7ControllerContent = false
  ∧ includesStr (str "router.get") w7RouteContent = false := by
  exact ⟨by decide, by decide, by decide, by decide⟩

end CodingExpress

namespace CodingExpress

/-- C6 (amended): a path group with no matching schema in
`components.schemas` gets NO model at all (model files are emitted only
for names present in `components.schemas`, so there is no placeholder and
no per-resource warning), its validator is skipped, its route file carries
the TODO comment instead of a validator import (and, being built with
`schemaPresent = false`, no validator middleware) — and generation
continues: the resource still gets its controller, route file and router
registration, and every resource's events reach the overall run. -/
theorem C6_schemaless_group (spec : SpecDoc) (orm : Orm)
    (entry : Str × ResourcePaths)
    (hp : spec.paths.isEmpty = false)
    (hentry : entry ∈ groupResources spec.paths)
    (hschema : lookupA spec.schemas (singularNameOf entry.1) = none) :
    emitResource spec.schemas orm entry =
      [GenEvent.calledCreateFile
         (str "app/controllers/" ++ (singularNameOf entry.1 ++ str "Controller") ++ str ".js")
         (controllerFileContentOf (singularNameOf entry.1 ++ str "Controller")
           (singularNameOf entry.1) orm
           (concatStr ((opsOfResource entry.2).map
             (controllerMethodTextOf (singularNameOf entry.1) orm)))),
       GenEvent.calledCreateFile
         (routesPathOf (lowerFirst (singularNameOf entry.1) ++ str "Routes.js"))
         (routeFileContentOf (singularNameOf entry.1 ++ str "Controller")
           (lowerFirst (singularNameOf entry.1) ++ str "Validator")
           (singularNameOf entry.1) false
           (concatStr ((opsOfResource entry.2).map
             (routeEntryTextOf false (singularNameOf entry.1 ++ str "Controller")
               (lowerFirst (singularNameOf entry.1) ++ str "Validator"))))),
       GenEvent.registeredRoute (lowerFirst (singularNameOf entry.1))
         (lowerFirst (singularNameOf entry.1) ++ str "Routes.js")]
  ∧ (str "// TODO: Create and import validator for this resource") <:+:
      routeFileContentOf (singularNameOf entry.1 ++ str "Controller")
        (lowerFirst (singularNameOf entry.1) ++ str "Validator")
        (singularNameOf entry.1) false
        (concatStr ((opsOfResource entry.2).map
          (routeEntryTextOf false (singularNameOf entry.1 ++ str "Controller")
            (lowerFirst (singularNameOf entry.1) ++ str "Validator"))))
  ∧ (∀ c : Str, GenEvent.calledCreateFile (modelPathOf (singularNameOf entry.1)) c
        ∉ generateModelsFromSpec spec orm)
  ∧ (∀ e ∈ emitResource spec.schemas orm entry,
      e ∈ generateRoutesAndControllersFromSpec spec orm) := by
  refine ⟨emitResource_no_schema spec.schemas orm entry hschema,
    todo_infix_routeFile _ _ _ _, ?_, ?_⟩
  · intro c
    exact no_model_for_schemaless spec orm _ c hschema
  · intro e he
    exact emitResource_mem_events spec orm entry e hp hentry he

/-- C6 witness: the schemaless `/widgets` group of `c6Spec`. -/
theorem C6_schemaless_group_witness :
    (str "// TODO: Create and import validator for this resource") <:+:
      routeFileContentOf (singularNameOf (str "Widgets") ++ str "Controller")
        (lowerFirst (singularNameOf (str "Widgets")) ++ str "Validator")
        (singularNameOf (str "Widgets")) false
        (concatStr ((opsOfResource widgetsEntry.2).map
          (routeEntryTextOf false (singularNameOf (str "Widgets") ++ str "Controller")
            (lowerFirst (singularNameOf (str "Widgets")) ++ str "Validator"))))
  ∧ GenEvent.calledCreateFile (modelPathOf (singularNameOf (str "Widgets"))) (str "x")
      ∉ generateModelsFromSpec c6Spec Orm.mongoose := by
  have h := C6_schemaless_group c6Spec Orm.mongoose widgetsEntry
    (by decide) (by decide) (by decide)
  exact ⟨h.2.1, h.2.2.1 (str "x")⟩

set_option maxRecDepth 200000 in
/-- C6 counterexample: `c6Spec` has a `/widgets` group and no `Widget`
schema.  The claim says a minimal placeholder model is emitted and a
warning recorded for the missing schema; in fact `generateModelsFromSpec`
emits nothing for `Widget` and no warning (its only event is the real
`Product` model), while the widget route file is still generated with the
TODO comment — so the placeholder-and-warning part of the claim is false. -/
theorem C6_counterexample :
    (generateModelsFromSpec c6Spec Orm.mongoose).length = 1
  ∧ (generateModelsFromSpec c6Spec Orm.mongoose).any widgetModelOrWarning = false
  ∧ GenEvent.calledCreateFile (str "app/routes/widgetRoutes.js") c6WidgetRouteContent
      ∈ generateRoutesAndControllersFromSpec c6Spec Orm.mongoose
  ∧ includesStr (str "// TODO: Create and import validator for this resource")
      c6WidgetRouteContent = true := by
  exact ⟨by decide, by decide, by decide, by decide⟩

end CodingExpress

namespace CodingExpress

theorem validatorDecl_contained (r : Str) (sch : SchemaObj) (props : List (Str × PropSchema)) :
    (str "const " ++ validatorDeclIdent r ++ str " = ") <:+:
      validatorFileContentOf r sch props := by
  refine infix_of_eq_append _
    (str "const \x7b body \x7d = require('express-validator');\n\n")
    (str "\x7b\n  store: [\n"
      ++ joinWith (str ",\n")
          (props.map (fun pr => str "  " ++ concatStr (storeChainOf sch pr.1 pr.2)))
      ++ str "\n  ],\n  update: [\n"
      ++ joinWith (str ",\n")
          (props.map (fun pr => str "  body('" ++ pr.1 ++ str "').optional()"
            ++ concatStr ((storeChainOf sch pr.1 pr.2).drop 1)))
      ++ str "\n  ],\n\x7d;\n\nmodule.exports = " ++ validatorDeclIdent r ++ str ";") _ ?_
  have h1 : str "const \x7b body \x7d = require('express-validator');\n\nconst "
      = str "const \x7b body \x7d = require('express-validator');\n\n" ++ str "const " := by
    decide
  have h2 : str " = \x7b\n  store: [\n" = str " = " ++ str "\x7b\n  store: [\n" := by decide
  simp [validatorFileContentOf, h1, h2, List.append_assoc]

theorem lookupA_some_mem {α : Type} (l : List (Str × α)) (q : Str) (v : α)
    (h : lookupA l q = some v) : (q, v) ∈ l := by
  induction l with
  | nil => simp [lookupA] at h
  | cons e rest ih =>
    obtain ⟨k, w⟩ := e
    by_cases hk : k = q
    · subst hk
      simp only [lookupA, if_pos rfl] at h
      obtain rfl : w = v := Option.some.inj h
      exact List.mem_cons_self _ _
    · simp only [lookupA, hk, if_false] at h
      exact List.mem_cons_of_mem _ (ih h)

theorem generateModels_mem_mongoose (spec : SpecDoc) (n : Str) (sch : SchemaObj)
    (props : List (Str × PropSchema))
    (hmem : (n, sch) ∈ spec.schemas)
    (hty : sch.type = some (str "object"))
    (hprops : sch.properties = some props) :
    GenEvent.calledCreateFile (modelPathOf n)
        (getMongooseModelTemplate n (str "default") (mongooseFieldsOf sch props))
      ∈ generateModelsFromSpec spec Orm.mongoose := by
  unfold generateModelsFromSpec
  have hne : spec.schemas.isEmpty = false := by
    cases hl : spec.schemas with
    | nil => rw [hl] at hmem; cases hmem
    | cons a l => rfl
  rw [if_neg (by simp [hne])]
  refine List.mem_flatMap.mpr ⟨(n, sch), hmem, ?_⟩
  dsimp only
  rw [hprops]
  dsimp only
  rw [if_neg (not_not_intro hty)]
  simp

theorem generateModels_mem_prisma (spec : SpecDoc) (n : Str) (sch : SchemaObj)
    (props : List (Str × PropSchema))
    (hmem : (n, sch) ∈ spec.schemas)
    (hty : sch.type = some (str "object"))
    (hprops : sch.properties = some props) :
    GenEvent.appendedPrisma (eol ++ eol ++ prismaModelBlockOf n sch props)
      ∈ generateModelsFromSpec spec Orm.prisma := by
  unfold generateModelsFromSpec
  have hne : spec.schemas.isEmpty = false := by
    cases hl : spec.schemas with
    | nil => rw [hl] at hmem; cases hmem
    | cons a l => rfl
  rw [if_neg (by simp [hne])]
  refine List.mem_flatMap.mpr ⟨(n, sch), hmem, ?_⟩
  dsimp only
  rw [hprops]
  dsimp only
  rw [if_neg (not_not_intro hty)]
  simp

theorem mongooseSchemaDecl_contained (name conn fields : Str) :
    (str "const " ++ (toLowerStr name ++ str "Schema") ++ str " = new Schema(") <:+:
      getMongooseModelTemplate name conn fields := by
  refine infix_of_eq_append _
    (str "const mongoose = require('mongoose');\nconst \x7b Schema \x7d = mongoose;\nconst \x7b getConnection \x7d = require('../../config/database');\n\n")
    (str "\n  " ++ fields
      ++ str ",\n  \x7b timestamps: true \x7d\n);\n\nmodule.exports = async () => \x7b\n  const conn = await getConnection('"
      ++ conn ++ str "');\n  return conn.model('" ++ name ++ str "', " ++ toLowerStr name
      ++ str "Schema);\n\x7d;\n") _ ?_
  have h1 : str "const mongoose = require('mongoose');\nconst \x7b Schema \x7d = mongoose;\nconst \x7b getConnection \x7d = require('../../config/database');\n\nconst "
      = str "const mongoose = require('mongoose');\nconst \x7b Schema \x7d = mongoose;\nconst \x7b getConnection \x7d = require('../../config/database');\n\n"
        ++ str "const " := by decide
  have h2 : str "Schema = new Schema(\n  "
      = str "Schema" ++ str " = new Schema(" ++ str "\n  " := by decide
  simp [getMongooseModelTemplate, h1, h2, List.append_assoc]

theorem mongooseModelCall_contained (name conn fields : Str) :
    (str "conn.model('" ++ name ++ str "', " ++ (toLowerStr name ++ str "Schema")
      ++ str ");") <:+:
      getMongooseModelTemplate name conn fields := by
  refine infix_of_eq_append _
    (str "const mongoose = require('mongoose');\nconst \x7b Schema \x7d = mongoose;\nconst \x7b getConnection \x7d = require('../../config/database');\n\nconst "
      ++ toLowerStr name ++ str "Schema = new Schema(\n  " ++ fields
      ++ str ",\n  \x7b timestamps: true \x7d\n);\n\nmodule.exports = async () => \x7b\n  const conn = await getConnection('"
      ++ conn ++ str "');\n  return ")
    (str "\n\x7d;\n") _ ?_
  have h3 : str "');\n  return conn.model('"
      = str "');\n  return " ++ str "conn.model('" := by decide
  have h4 : str "Schema);\n\x7d;\n" = str "Schema" ++ str ");" ++ str "\n\x7d;\n" := by decide
  simp [getMongooseModelTemplate, h3, h4, List.append_assoc]

theorem prismaModelHeader_contained (n : Str) (sch : SchemaObj)
    (props : List (Str × PropSchema)) :
    (str "model " ++ n ++ str " \x7b") <:+: prismaModelBlockOf n sch props := by
  refine infix_of_eq_append _ ([] : Str)
    (str "\n  id          Int      @id @default(autoincrement())\n  "
      ++ concatStr ((props.filter (fun pr => toLowerStr pr.1 ≠ str "id")).map
          (fun pr => prismaFieldOf sch pr.1 pr.2))
      ++ str "\n\n  createdAt   DateTime @default(now())\n  updatedAt   DateTime @updatedAt\n\x7d") _ ?_
  have h5 : str " \x7b\n  id          Int      @id @default(autoincrement())\n  "
      = str " \x7b" ++ str "\n  id          Int      @id @default(autoincrement())\n  " := by
    decide
  simp [prismaModelBlockOf, h5, List.append_assoc]

theorem modelImport_contained (cn sn methods : Str) :
    (str "const getModel = require('../models/" ++ sn ++ str "');") <:+:
      controllerFileContentOf cn sn Orm.mongoose methods := by
  refine infix_of_eq_append _ ([] : Str)
    (str "\n\nclass " ++ cn ++ str " \x7b" ++ methods
      ++ str "\n\x7d\n\nmodule.exports = new " ++ cn ++ str "();") _ ?_
  simp [controllerFileContentOf, List.append_assoc]

/-- C1 (amended): for a resource whose singular name has no uppercase
letter after its first character (so `toLowerCase` and
lowercase-first-letter agree, as for every single-word name such as
`Order`), and whose schema under that singular name is object-typed with
properties (so a model is emitted), all four artifacts agree on one
capitalized token and one lowercase token: the model is emitted at
`app/models/<Singular>.js` registering `conn.model('<Singular>',
<lowercase>Schema)` under mongoose (respectively a `model <Singular>`
block appended under prisma), the controller imports
`../models/<Singular>` and names its class `<Singular>Controller`, the
validator file declares `<lowercase>Validator` — the very identifier the
route file imports from `../validators/<Singular>Validator` — and the
route module is registered under the lowercase name.  For singular names
with interior capitals the validator identifiers diverge — see the
counterexample. -/
theorem C1_naming_consistency (spec : SpecDoc) (orm : Orm)
    (entry : Str × ResourcePaths) (sch : SchemaObj) (props : List (Str × PropSchema))
    (hp : spec.paths.isEmpty = false)
    (hentry : entry ∈ groupResources spec.paths)
    (hsch : lookupA spec.schemas (singularNameOf entry.1) = some sch)
    (hty : sch.type = some (str "object"))
    (hprops : sch.properties = some props)
    (hlc : toLowerStr (singularNameOf entry.1) = lowerFirst (singularNameOf entry.1)) :
    validatorDeclIdent (singularNameOf entry.1)
      = lowerFirst (singularNameOf entry.1) ++ str "Validator"
  ∧ emitResource spec.schemas orm entry =
      [GenEvent.calledCreateFile (validatorPathOf (singularNameOf entry.1))
         (validatorFileContentOf (singularNameOf entry.1) sch props),
       GenEvent.calledCreateFile
         (str "app/controllers/" ++ (singularNameOf entry.1 ++ str "Controller") ++ str ".js")
         (controllerFileContentOf (singularNameOf entry.1 ++ str "Controller")
           (singularNameOf entry.1) orm
           (concatStr ((opsOfResource entry.2).map
             (controllerMethodTextOf (singularNameOf entry.1) orm)))),
       GenEvent.calledCreateFile
         (routesPathOf (lowerFirst (singularNameOf entry.1) ++ str "Routes.js"))
         (routeFileContentOf (singularNameOf entry.1 ++ str "Controller")
           (lowerFirst (singularNameOf entry.1) ++ str "Validator")
           (singularNameOf entry.1) true
           (concatStr ((opsOfResource entry.2).map
             (routeEntryTextOf true (singularNameOf entry.1 ++ str "Controller")
               (lowerFirst (singularNameOf entry.1) ++ str "Validator"))))),
       GenEvent.registeredRoute (lowerFirst (singularNameOf entry.1))
         (lowerFirst (singularNameOf entry.1) ++ str "Routes.js")]
  ∧ (str "const " ++ (lowerFirst (singularNameOf entry.1) ++ str "Validator")
       ++ str " = require('../validators/" ++ singularNameOf entry.1 ++ str "Validator');") <:+:
      routeFileContentOf (singularNameOf entry.1 ++ str "Controller")
        (lowerFirst (singularNameOf entry.1) ++ str "Validator")
        (singularNameOf entry.1) true
        (concatStr ((opsOfResource entry.2).map
          (routeEntryTextOf true (singularNameOf entry.1 ++ str "Controller")
            (lowerFirst (singularNameOf entry.1) ++ str "Validator"))))
  ∧ (str "const " ++ (lowerFirst (singularNameOf entry.1) ++ str "Validator") ++ str " = ") <:+:
      validatorFileContentOf (singularNameOf entry.1) sch props
  ∧ GenEvent.calledCreateFile (modelPathOf (singularNameOf entry.1))
      (getMongooseModelTemplate (singularNameOf entry.1) (str "default")
        (mongooseFieldsOf sch props))
      ∈ generateModelsFromSpec spec Orm.mongoose
  ∧ GenEvent.appendedPrisma
      (eol ++ eol ++ prismaModelBlockOf (singularNameOf entry.1) sch props)
      ∈ generateModelsFromSpec spec Orm.prisma
  ∧ (str "const " ++ (lowerFirst (singularNameOf entry.1) ++ str "Schema")
       ++ str " = new Schema(") <:+:
      getMongooseModelTemplate (singularNameOf entry.1) (str "default")
        (mongooseFieldsOf sch props)
  ∧ (str "conn.model('" ++ singularNameOf entry.1 ++ str "', "
       ++ (lowerFirst (singularNameOf entry.1) ++ str "Schema") ++ str ");") <:+:
      getMongooseModelTemplate (singularNameOf entry.1) (str "default")
        (mongooseFieldsOf sch props)
  ∧ (str "model " ++ singularNameOf entry.1 ++ str " \x7b") <:+:
      prismaModelBlockOf (singularNameOf entry.1) sch props
  ∧ (str "const getModel = require('../models/" ++ singularNameOf entry.1 ++ str "');") <:+:
      controllerFileContentOf (singularNameOf entry.1 ++ str "Controller")
        (singularNameOf entry.1) Orm.mongoose
        (concatStr ((opsOfResource entry.2).map
          (controllerMethodTextOf (singularNameOf entry.1) Orm.mongoose)))
  ∧ (∀ e ∈ emitResource spec.schemas orm entry,
      e ∈ generateRoutesAndControllersFromSpec spec orm) := by
  have hdecl : validatorDeclIdent (singularNameOf entry.1)
      = lowerFirst (singularNameOf entry.1) ++ str "Validator" := by
    unfold validatorDeclIdent
    rw [hlc]
  have hmem := lookupA_some_mem spec.schemas (singularNameOf entry.1) sch hsch
  refine ⟨hdecl, emitResource_with_schema spec.schemas orm entry sch props hsch hprops,
    validatorImport_infix_routeFile _ _ _ _, ?_,
    generateModels_mem_mongoose spec _ sch props hmem hty hprops,
    generateModels_mem_prisma spec _ sch props hmem hty hprops,
    ?_, ?_, prismaModelHeader_contained _ sch props, modelImport_contained _ _ _, ?_⟩
  · rw [← hdecl]
    exact validatorDecl_contained _ sch props
  · rw [← hlc]
    exact mongooseSchemaDecl_contained _ _ _
  · rw [← hlc]
    exact mongooseModelCall_contained _ _ _
  · intro e he
    exact emitResource_mem_events spec orm entry e hp hentry he

/-- C1 witness: the single-word resource `Products`/`Product` of the
end-to-end document, where all four artifacts — model included — agree on
`Product` and `product`. -/
theorem C1_naming_consistency_witness :
    validatorDeclIdent (singularNameOf (str "Products"))
      = lowerFirst (singularNameOf (str "Products")) ++ str "Validator"
  ∧ (str "const " ++ (lowerFirst (singularNameOf (str "Products")) ++ str "Validator")
       ++ str " = ") <:+:
      validatorFileContentOf (singularNameOf (str "Products")) productSchema
        [(str "name", ⟨some (str "string"), none⟩), (str "price", ⟨some (str "number"), none⟩)]
  ∧ GenEvent.calledCreateFile (modelPathOf (singularNameOf (str "Products")))
      (getMongooseModelTemplate (singularNameOf (str "Products")) (str "default")
        (mongooseFieldsOf productSchema
          [(str "name", ⟨some (str "string"), none⟩), (str "price", ⟨some (str "number"), none⟩)]))
      ∈ generateModelsFromSpec demoSpec Orm.mongoose
  ∧ (str "conn.model('" ++ singularNameOf (str "Products") ++ str "', "
       ++ (lowerFirst (singularNameOf (str "Products")) ++ str "Schema") ++ str ");") <:+:
      getMongooseModelTemplate (singularNameOf (str "Products")) (str "default")
        (mongooseFieldsOf productSchema
          [(str "name", ⟨some (str "string"), none⟩), (str "price", ⟨some (str "number"), none⟩)]) := by
  have h := C1_naming_consistency demoSpec Orm.mongoose productsEntry productSchema
    [(str "name", ⟨some (str "string"), none⟩), (str "price", ⟨some (str "number"), none⟩)]
    (by decide) (by decide) (by decide) (by decide) (by decide) (by decide)
  exact ⟨h.1, h.2.2.2.1, h.2.2.2.2.1, h.2.2.2.2.2.2.2.1⟩

set_option maxRecDepth 400000 in
/-- C1 counterexample: the multi-word resource `/userProfiles` with schema
`UserProfile`.  The validator file declares `userprofileValidator`
(`toLowerCase` of the singular name) while the route file imports
`userProfileValidator` (first-letter-lowercased) — two different strings,
so the artifacts do not all use one canonical lowercase token. -/
theorem C1_counterexample :
    GenEvent.calledCreateFile (str "app/validators/UserProfileValidator.js") upValidatorContent
      ∈ generateRoutesAndControllersFromSpec upSpec Orm.mongoose
  ∧ GenEvent.calledCreateFile (str "app/routes/userProfileRoutes.js") upRouteContent
      ∈ generateRoutesAndControllersFromSpec upSpec Orm.mongoose
  ∧ includesStr (str "const userprofileValidator = ") upValidatorContent = true
  ∧ includesStr
      (str "const userProfileValidator = require('../validators/UserProfileValidator');")
      upRouteContent = true
  ∧ includesStr (str "userProfileValidator") upValidatorContent = false
  ∧ validatorDeclIdent (str "UserProfile")
      ≠ lowerFirst (singularNameOf (str "UserProfiles")) ++ str "Validator" := by
  exact ⟨by decide, by decide, by decide, by decide, by decide, by decide⟩

end CodingExpress
